import Mathlib

/-!
KISS-over-TCP interface adapter (`receiver_csp.c`, `sender_csp.c`).

A shallow embedding of the two adapter programs of the repository:

* `Receiver` is the listening role (`src/receiver_csp.c`),
* `Sender` is the connecting role (`src/sender_csp.c`).

System and library calls (`send`, `recv`, `accept`, `socket`, ...) are modelled by
the value the call returns, supplied by the environment, and by an `Effect`
recorded in a trace, in call order.
-/

namespace KissTcp

/-- One octet of a frame. Only positions and order of octets matter here. -/
abbrev Byte := Nat

/-- Modelled from the spec: the numeric values of the `CSP_ERR_*` constants come
from the header `csp/csp_error.h` of the external stack, which is not among the
sources. Section 6 of the specification states that the return code distinguishes
success, "no connection" and "write failed", so the codes used by the two
programs are modelled as distinct symbolic constants. -/
inductive CspErr where
  | CSP_ERR_NONE
  | CSP_ERR_NOMEM
  | CSP_ERR_INVAL
  | CSP_ERR_NOCONN
  | CSP_ERR_TX
  deriving DecidableEq, Repr

open CspErr

/-- The value of `EINTR` in `errno.h` (4 on Linux). No result below depends on
the number chosen. -/
def EINTR : Int := 4

/-- The entry points handed to `pthread_create`. -/
inductive ThreadFn where
  | kiss_tcp_accept_loop
  | kiss_tcp_rx_loop
  | router_loop
  deriving DecidableEq, Repr

/-- The calls the two programs make to the outside world, with the arguments
that matter. A trace is a list of effects in call order. -/
inductive Effect where
  | mutex_lock
  | mutex_unlock
  | send (fd : Int) (data : List Byte) (len : Nat)
  | recv (fd : Int) (size : Nat)
  | csp_kiss_rx (buf : List Byte) (len : Nat)
  | accept (listen_fd : Int)
  | close (fd : Int)
  | pthread_create (fn : ThreadFn)
  | pthread_join (fn : ThreadFn)
  | csp_init
  | socket
  | setsockopt (fd : Int)
  | inet_pton
  | bind (fd : Int)
  | listen (fd : Int) (backlog : Nat)
  | connect (fd : Int)
  | csp_kiss_add_interface
  | csp_iflist_add
  | csp_rtable_set
  | run_receiver
  | send_demo_payload
  | clear_router_running
  deriving DecidableEq, Repr

/-- The conversion `(ssize_t) len` of a `size_t` on the 64-bit targets of the
programs: the 64-bit pattern of `len` read as a two's complement number. -/
def ssize_cast (len : Nat) : Int :=
  if len % 2 ^ 64 < 2 ^ 63 then ((len % 2 ^ 64 : Nat) : Int)
  else ((len % 2 ^ 64 : Nat) : Int) - 2 ^ 64

/-- What a call of `kiss_tcp_driver_tx` yields: the returned code, the calls it
made, and the adapter state it leaves. -/
structure TxResult (σ : Type) where
  ret : CspErr
  trace : List Effect
  ctx : σ

/-! ## The receive pump (identical loop body in both programs) -/

/-- What one call `recv(fd, buf, sizeof(buf), 0)` yields: the returned count
`rd`, the value of `errno` afterwards (read by the loop only when `rd < 0`) and
the octets the call stored at the start of `buf` (the first `rd` of `data` when
`rd > 0`). -/
structure RecvResult where
  rd : Int
  errno : Int
  data : List Byte
  deriving DecidableEq, Repr

/-- The size of the stack buffer, `sizeof(buf)` for `uint8_t buf[512]`. -/
def RX_BUF_SIZE : Nat := 512

/-- The buffer `buf` after a `recv` call stored its octets at the front. -/
def recv_store (buf : List Byte) (r : RecvResult) : List Byte :=
  if r.rd > 0 then r.data.take r.rd.toNat ++ buf.drop r.rd.toNat else buf

/-- How one iteration of the `while` body ends. -/
inductive RxNext where
  | again
  | stop
  deriving DecidableEq, Repr

/-- One iteration of the body of `kiss_tcp_rx_loop` (entered with the run flag
set): the `recv` call and the three-way branch on its result. Yields how the
iteration ends, the buffer, and the calls made. -/
def rx_iter (fd : Int) (buf : List Byte) (r : RecvResult) :
    RxNext × List Byte × List Effect :=
  let buf1 := recv_store buf r
  let rd := r.rd
  if rd > 0 then
    (RxNext.again, buf1, [Effect.recv fd RX_BUF_SIZE, Effect.csp_kiss_rx buf1 rd.toNat])
  else if rd = 0 then
    (RxNext.stop, buf1, [Effect.recv fd RX_BUF_SIZE])
  else if r.errno ≠ EINTR then
    (RxNext.stop, buf1, [Effect.recv fd RX_BUF_SIZE])
  else
    (RxNext.again, buf1, [Effect.recv fd RX_BUF_SIZE])

/-- The outcome of running the pump over a finite script of `recv` results.
`exited = false` means the script ran out while the loop was still running: the
thread is blocked in the next `recv`. `trace` lists the calls that returned. -/
structure RxOutcome where
  exited : Bool
  run : Bool
  buf : List Byte
  trace : List Effect
  consumed : Nat
  deriving DecidableEq, Repr

/-- The loop `while (run) { ... } run = false;` of `kiss_tcp_rx_loop`, over the
script of results of its successive `recv` calls. -/
def rx_pump (run : Bool) (fd : Int) (buf : List Byte) : List RecvResult → RxOutcome
  | [] =>
    if run then { exited := false, run := run, buf := buf, trace := [], consumed := 0 }
    else { exited := true, run := false, buf := buf, trace := [], consumed := 0 }
  | r :: rs =>
    if run then
      match rx_iter fd buf r with
      | (RxNext.again, buf1, tr) =>
        let o := rx_pump run fd buf1 rs
        { o with trace := tr ++ o.trace, consumed := o.consumed + 1 }
      | (RxNext.stop, buf1, tr) =>
        { exited := true, run := false, buf := buf1, trace := tr, consumed := 1 }
    else { exited := true, run := false, buf := buf, trace := [], consumed := 0 }

/-- The octets the decoder is handed by one effect: the span `buf[0 .. len)` of
a `csp_kiss_rx(iface, buf, len, NULL)` call, nothing for any other call. -/
def delivered : Effect → List (List Byte)
  | Effect.csp_kiss_rx buf len => [buf.take len]
  | _ => []

/-- The chunks handed to the decoder by a trace, in call order. -/
def deliveries (tr : List Effect) : List (List Byte) :=
  tr.flatMap delivered

/-- The lengths passed to `csp_kiss_rx` by a trace, in call order. -/
def delivered_lens (tr : List Effect) : List Nat :=
  tr.flatMap fun e => match e with
    | Effect.csp_kiss_rx _ len => [len]
    | _ => []

/-- A `recv` result that ends the loop: end of stream, or a failure whose
`errno` is not `EINTR`. -/
def RecvResult.stops (r : RecvResult) : Bool :=
  r.rd = 0 || (r.rd < 0 && r.errno != EINTR)

/-- A `recv` result that is an interrupted call. -/
def RecvResult.interrupted (r : RecvResult) : Bool :=
  r.rd < 0 && r.errno == EINTR

/-- A `recv` result that carries data in keeping with the contract of `recv`:
between 1 and 512 octets, `rd` of them. -/
def RecvResult.is_data (r : RecvResult) : Bool :=
  0 < r.rd && r.rd ≤ 512 && r.data.length == r.rd.toNat

/-- The octets a script of `recv` results carries: those of its positive reads. -/
def sent_bytes (rs : List RecvResult) : List Byte :=
  rs.flatMap fun r => if r.rd > 0 then r.data else []

/-- The positive counts returned by `recv` in a script, in call order. -/
def positive_counts (rs : List RecvResult) : List Nat :=
  rs.flatMap fun r => if r.rd > 0 then [r.rd.toNat] else []

/-! ## Listening role: data and transmit -/

namespace Receiver

/-- The fields of `kiss_tcp_server_t` that carry state (the thread handles are
represented by the thread effects). -/
structure kiss_tcp_server_t where
  listen_fd : Int
  client_fd : Int
  run : Bool
  deriving DecidableEq, Repr

/-- The adapter `kiss_tcp_iface_t` of the listening role; `iface`, `kiss_state`
belong to the external stack and `tx_lock` shows as lock effects. -/
structure kiss_tcp_iface_t where
  server : kiss_tcp_server_t
  deriving DecidableEq, Repr

/-- The function `kiss_tcp_driver_tx` of `receiver_csp.c`. `send_ret` is the value the one
`send` call returns. -/
def kiss_tcp_driver_tx (ctx : kiss_tcp_iface_t) (data : List Byte) (len : Nat)
    (send_ret : Int) : TxResult kiss_tcp_iface_t :=
  if ctx.server.client_fd < 0 then
    { ret := CSP_ERR_NOCONN, trace := [], ctx := ctx }
  else
    let sent := send_ret
    { ret := if sent = ssize_cast len then CSP_ERR_NONE else CSP_ERR_TX
      trace := [Effect.mutex_lock, Effect.send ctx.server.client_fd data len,
                Effect.mutex_unlock]
      ctx := ctx }

/-- What a run of `kiss_tcp_rx_loop` leaves behind: the adapter, whether the
thread function returned, the calls made and the number of `recv` results used. -/
structure RxResult where
  ctx : kiss_tcp_iface_t
  exited : Bool
  trace : List Effect
  consumed : Nat
  deriving DecidableEq, Repr

/-- The function `kiss_tcp_rx_loop` of `receiver_csp.c`: the pump on `server.client_fd`,
governed by `server.run`, which it clears on leaving. -/
def kiss_tcp_rx_loop (ctx : kiss_tcp_iface_t) (buf : List Byte)
    (rs : List RecvResult) : RxResult :=
  let o := rx_pump ctx.server.run ctx.server.client_fd buf rs
  { ctx := { ctx with server := { ctx.server with run := o.run } }
    exited := o.exited
    trace := o.trace
    consumed := o.consumed }

/-- The states of the accept loop named by the specification. `LISTENING`: the
thread is inside `accept`. `CONNECTED`: a connection is recorded and the thread
is inside (or about to return from) `pthread_join`. `CLOSED`: the loop was left. -/
inductive Phase where
  | LISTENING
  | CONNECTED
  | CLOSED
  deriving DecidableEq, Repr

/-- The state of the accept thread and of the receive pump it starts.
`fd` is the local variable of `kiss_tcp_accept_loop`; `rx_alive` says the pump
thread is inside `recv`; `open_fds` lists the descriptors returned by `accept`
and not yet closed; `trace` lists the calls that returned. -/
structure AcceptState where
  phase : Phase
  server : kiss_tcp_server_t
  fd : Int
  rx_alive : Bool
  rx_buf : List Byte
  open_fds : List Int
  trace : List Effect
  deriving DecidableEq, Repr

/-- What the environment does next: `accept` returns `fd` (with `errno` set
when `fd < 0`) and the `pthread_create` that follows a success returns
`create_rc`; the pump's `recv` returns; `pthread_join` returns. -/
inductive Event where
  | accept_ret (fd : Int) (errno : Int) (create_rc : Int)
  | recv_ret (r : RecvResult)
  | join_ret
  deriving DecidableEq, Repr

/-- The test `while (ctx->server.run)` of the accept loop: enter `accept`, or
leave the loop. -/
def accept_loop_test (s : AcceptState) : AcceptState :=
  { s with phase := if s.server.run then Phase.LISTENING else Phase.CLOSED }

/-- The test `while (ctx->server.run)` of the pump: enter `recv`, or leave the
loop, clear the flag and return. -/
def rx_loop_test (s : AcceptState) : AcceptState :=
  if s.server.run then { s with rx_alive := true }
  else { s with rx_alive := false, server := { s.server with run := false } }

/-- One step of `kiss_tcp_accept_loop` together with the pump thread it is
joined to. `none`: the event cannot happen in this state. -/
def step (s : AcceptState) : Event → Option AcceptState
  | Event.accept_ret fd errno create_rc =>
    if s.phase = Phase.LISTENING then
      let s0 := { s with fd := fd, trace := s.trace ++ [Effect.accept s.server.listen_fd] }
      if fd < 0 then
        if errno = EINTR then some (accept_loop_test s0)
        else some { s0 with phase := Phase.CLOSED }
      else
        let s1 := { s0 with
          server := { s0.server with client_fd := fd, run := true }
          open_fds := fd :: s0.open_fds
          trace := s0.trace ++ [Effect.pthread_create ThreadFn.kiss_tcp_rx_loop] }
        if create_rc ≠ 0 then
          some { s1 with
            phase := Phase.CLOSED
            server := { s1.server with client_fd := -1, run := false }
            open_fds := s1.open_fds.erase fd
            trace := s1.trace ++ [Effect.close fd] }
        else
          some (rx_loop_test { s1 with phase := Phase.CONNECTED })
    else none
  | Event.recv_ret r =>
    if s.phase = Phase.CONNECTED ∧ s.rx_alive = true then
      match rx_iter s.server.client_fd s.rx_buf r with
      | (RxNext.again, buf1, tr) =>
        some (rx_loop_test { s with rx_buf := buf1, trace := s.trace ++ tr })
      | (RxNext.stop, buf1, tr) =>
        some { s with
          rx_buf := buf1
          trace := s.trace ++ tr
          rx_alive := false
          server := { s.server with run := false } }
    else none
  | Event.join_ret =>
    if s.phase = Phase.CONNECTED ∧ s.rx_alive = false then
      some (accept_loop_test { s with
        server := { s.server with client_fd := -1, run := true }
        open_fds := s.open_fds.erase s.fd
        trace := s.trace ++ [Effect.pthread_join ThreadFn.kiss_tcp_rx_loop, Effect.close s.fd] })
    else none

/-- Runs a script of events; `none` when some event cannot happen. -/
def exec (s : AcceptState) : List Event → Option AcceptState
  | [] => some s
  | e :: es =>
    match step s e with
    | some s1 => exec s1 es
    | none => none

/-- The phases passed through while running a script, the starting one first;
the list ends where an event cannot happen. -/
def phases (s : AcceptState) : List Event → List Phase
  | [] => [s.phase]
  | e :: es =>
    match step s e with
    | some s1 => s.phase :: phases s1 es
    | none => [s.phase]

/-- The number of `accept` calls that returned in a trace. -/
def accept_count (tr : List Effect) : Nat :=
  tr.countP fun e => match e with
    | Effect.accept _ => true
    | _ => false

/-- What the environment returns to the fallible calls of
`kiss_tcp_iface_init`, in call order. -/
structure InitEnv where
  socket_ret : Int
  inet_pton_ret : Int
  bind_ret : Int
  listen_ret : Int
  add_interface_ret : CspErr
  create_ret : Int
  deriving DecidableEq, Repr

/-- What `kiss_tcp_iface_init` yields: the returned code, the calls made and
the adapter it leaves. -/
structure InitResult where
  ret : CspErr
  trace : List Effect
  ctx : kiss_tcp_iface_t
  deriving DecidableEq, Repr

/-- The function `kiss_tcp_iface_init` of `receiver_csp.c`. The result of `setsockopt` is
not looked at by the code. -/
def kiss_tcp_iface_init (ctx : kiss_tcp_iface_t) (env : InitEnv) : InitResult :=
  let ctx1 : kiss_tcp_iface_t := { ctx with server := { ctx.server with listen_fd := env.socket_ret } }
  let t1 := [Effect.socket]
  if ctx1.server.listen_fd < 0 then
    { ret := CSP_ERR_NOMEM, trace := t1, ctx := ctx1 }
  else
    let t2 := t1 ++ [Effect.setsockopt ctx1.server.listen_fd, Effect.inet_pton]
    if env.inet_pton_ret ≠ 1 then
      { ret := CSP_ERR_INVAL, trace := t2, ctx := ctx1 }
    else
      let t3 := t2 ++ [Effect.bind ctx1.server.listen_fd]
      if env.bind_ret < 0 then
        { ret := CSP_ERR_NOCONN, trace := t3, ctx := ctx1 }
      else
        let t4 := t3 ++ [Effect.listen ctx1.server.listen_fd 1]
        if env.listen_ret < 0 then
          { ret := CSP_ERR_NOCONN, trace := t4, ctx := ctx1 }
        else
          let t5 := t4 ++ [Effect.csp_kiss_add_interface]
          if env.add_interface_ret ≠ CSP_ERR_NONE then
            { ret := CSP_ERR_NOMEM, trace := t5, ctx := ctx1 }
          else
            let t6 := t5 ++ [Effect.csp_iflist_add, Effect.csp_rtable_set]
            let ctx2 : kiss_tcp_iface_t :=
              { ctx1 with server := { ctx1.server with client_fd := -1, run := true } }
            let t7 := t6 ++ [Effect.pthread_create ThreadFn.kiss_tcp_accept_loop]
            if env.create_ret ≠ 0 then
              { ret := CSP_ERR_NOMEM, trace := t7, ctx := ctx2 }
            else
              { ret := CSP_ERR_NONE, trace := t7, ctx := ctx2 }

/-- The function `start_router_task`: creates the thread that runs `router_loop`. -/
def start_router_task (create_ret : Int) : CspErr × List Effect :=
  if create_ret ≠ 0 then (CSP_ERR_NOMEM, [Effect.pthread_create ThreadFn.router_loop])
  else (CSP_ERR_NONE, [Effect.pthread_create ThreadFn.router_loop])

/-- The adapter `g_kiss_iface` before `main` runs: a static object, all fields
zero. -/
def g_kiss_iface : kiss_tcp_iface_t :=
  { server := { listen_fd := 0, client_fd := 0, run := false } }

/-- What the environment returns to `main`: the results for
`kiss_tcp_iface_init`, the result of the router `pthread_create`, and whether
`run_receiver` (whose accept loop has no exit) ever returns. -/
structure MainEnv where
  init : InitEnv
  router_create_ret : Int
  run_receiver_returns : Bool
  deriving DecidableEq, Repr

/-- What `main` yields: the exit status (`none` when `main` never returns) and
the calls the main thread made. -/
structure MainResult where
  exit : Option Int
  trace : List Effect
  deriving DecidableEq, Repr

/-- The function `main` of `receiver_csp.c`. -/
def main (env : MainEnv) : MainResult :=
  let t0 := [Effect.csp_init]
  let r := kiss_tcp_iface_init g_kiss_iface env.init
  if r.ret ≠ CSP_ERR_NONE then
    { exit := some 1, trace := t0 ++ r.trace }
  else
    let q := start_router_task env.router_create_ret
    if q.1 ≠ CSP_ERR_NONE then
      { exit := some 1, trace := t0 ++ r.trace ++ q.2 }
    else if env.run_receiver_returns then
      { exit := some 0
        trace := t0 ++ r.trace ++ q.2 ++
          [Effect.run_receiver, Effect.clear_router_running,
           Effect.pthread_join ThreadFn.router_loop] }
    else
      { exit := none, trace := t0 ++ r.trace ++ q.2 ++ [Effect.run_receiver] }

/-- The server fields as `kiss_tcp_iface_init` leaves them when it starts the
accept thread (lines 124, 157 and 158). -/
def init_server (listen_fd : Int) : kiss_tcp_server_t :=
  { listen_fd := listen_fd, client_fd := -1, run := true }

/-- The accept thread as it enters `kiss_tcp_accept_loop`: no pump, nothing
accepted, and the first loop test made. -/
def accept_loop_start (srv : kiss_tcp_server_t) (buf : List Byte) : AcceptState :=
  accept_loop_test
    { phase := Phase.LISTENING, server := srv, fd := -1, rx_alive := false
      rx_buf := buf, open_fds := [], trace := [] }

/-- The states the accept loop can be in, started by `kiss_tcp_iface_init` on
the listening descriptor `lfd`. -/
inductive Reachable (lfd : Int) : AcceptState → Prop where
  | start (buf : List Byte) : Reachable lfd (accept_loop_start (init_server lfd) buf)
  | next {s s1 : AcceptState} (e : Event) :
      Reachable lfd s → step s e = some s1 → Reachable lfd s1

end Receiver

/-! ## Connecting role: data and transmit -/

namespace Sender

/-- The fields of `kiss_tcp_driver_t` that carry state. -/
structure kiss_tcp_driver_t where
  sockfd : Int
  run : Bool
  deriving DecidableEq, Repr

/-- The adapter `kiss_tcp_iface_t` of the connecting role. -/
structure kiss_tcp_iface_t where
  driver : kiss_tcp_driver_t
  deriving DecidableEq, Repr

/-- The function `kiss_tcp_driver_tx` of `sender_csp.c`: its `driver_data` is the
`kiss_tcp_driver_t`; there is no liveness test and no lock. -/
def kiss_tcp_driver_tx (ctx : kiss_tcp_driver_t) (data : List Byte) (len : Nat)
    (send_ret : Int) : TxResult kiss_tcp_driver_t :=
  let sent := send_ret
  { ret := if sent = ssize_cast len then CSP_ERR_NONE else CSP_ERR_TX
    trace := [Effect.send ctx.sockfd data len]
    ctx := ctx }

/-- What a run of `kiss_tcp_rx_loop` leaves behind. -/
structure RxResult where
  ctx : kiss_tcp_iface_t
  exited : Bool
  trace : List Effect
  consumed : Nat
  deriving DecidableEq, Repr

/-- The function `kiss_tcp_rx_loop` of `sender_csp.c`: the pump on `driver.sockfd`, governed
by `driver.run`, which it clears on leaving. -/
def kiss_tcp_rx_loop (ctx : kiss_tcp_iface_t) (buf : List Byte)
    (rs : List RecvResult) : RxResult :=
  let o := rx_pump ctx.driver.run ctx.driver.sockfd buf rs
  { ctx := { ctx with driver := { ctx.driver with run := o.run } }
    exited := o.exited
    trace := o.trace
    consumed := o.consumed }

/-- What the environment returns to the fallible calls of
`kiss_tcp_iface_init`, in call order. -/
structure InitEnv where
  socket_ret : Int
  inet_pton_ret : Int
  connect_ret : Int
  add_interface_ret : CspErr
  create_ret : Int
  deriving DecidableEq, Repr

/-- What `kiss_tcp_iface_init` yields. -/
structure InitResult where
  ret : CspErr
  trace : List Effect
  ctx : kiss_tcp_iface_t
  deriving DecidableEq, Repr

/-- The function `kiss_tcp_iface_init` of `sender_csp.c`; it starts with
`memset(ctx, 0, sizeof(*ctx))`. -/
def kiss_tcp_iface_init (_ctx : kiss_tcp_iface_t) (env : InitEnv) : InitResult :=
  let ctx0 : kiss_tcp_iface_t := { driver := { sockfd := 0, run := false } }
  let ctx1 : kiss_tcp_iface_t := { ctx0 with driver := { ctx0.driver with sockfd := env.socket_ret } }
  let t1 := [Effect.socket]
  if ctx1.driver.sockfd < 0 then
    { ret := CSP_ERR_NOMEM, trace := t1, ctx := ctx1 }
  else
    let t2 := t1 ++ [Effect.inet_pton]
    if env.inet_pton_ret ≠ 1 then
      { ret := CSP_ERR_INVAL, trace := t2, ctx := ctx1 }
    else
      let t3 := t2 ++ [Effect.connect ctx1.driver.sockfd]
      if env.connect_ret < 0 then
        { ret := CSP_ERR_NOCONN, trace := t3, ctx := ctx1 }
      else
        let t4 := t3 ++ [Effect.csp_kiss_add_interface]
        if env.add_interface_ret ≠ CSP_ERR_NONE then
          { ret := CSP_ERR_NOMEM, trace := t4, ctx := ctx1 }
        else
          let t5 := t4 ++ [Effect.csp_iflist_add, Effect.csp_rtable_set]
          let ctx2 : kiss_tcp_iface_t := { ctx1 with driver := { ctx1.driver with run := true } }
          let t6 := t5 ++ [Effect.pthread_create ThreadFn.kiss_tcp_rx_loop]
          if env.create_ret ≠ 0 then
            { ret := CSP_ERR_NOMEM, trace := t6, ctx := ctx2 }
          else
            { ret := CSP_ERR_NONE, trace := t6, ctx := ctx2 }

/-- The function `start_router_task`: creates the thread that runs `router_loop`. -/
def start_router_task (create_ret : Int) : CspErr × List Effect :=
  if create_ret ≠ 0 then (CSP_ERR_NOMEM, [Effect.pthread_create ThreadFn.router_loop])
  else (CSP_ERR_NONE, [Effect.pthread_create ThreadFn.router_loop])

/-- The adapter `g_kiss_iface` before `main` runs: a static object, all fields
zero. -/
def g_kiss_iface : kiss_tcp_iface_t :=
  { driver := { sockfd := 0, run := false } }

/-- What the environment returns to `main`. -/
structure MainEnv where
  init : InitEnv
  router_create_ret : Int
  deriving DecidableEq, Repr

/-- What `main` yields: the exit status and the calls the main thread made. -/
structure MainResult where
  exit : Option Int
  trace : List Effect
  deriving DecidableEq, Repr

/-- The function `main` of `sender_csp.c`. -/
def main (env : MainEnv) : MainResult :=
  let t0 := [Effect.csp_init]
  let r := kiss_tcp_iface_init g_kiss_iface env.init
  if r.ret ≠ CSP_ERR_NONE then
    { exit := some 1, trace := t0 ++ r.trace }
  else
    let q := start_router_task env.router_create_ret
    if q.1 ≠ CSP_ERR_NONE then
      { exit := some 1, trace := t0 ++ r.trace ++ q.2 }
    else
      { exit := some 0
        trace := t0 ++ r.trace ++ q.2 ++
          [Effect.send_demo_payload, Effect.clear_router_running,
           Effect.pthread_join ThreadFn.router_loop] }

end Sender

/-! ## The invariant of the accept loop -/

namespace Receiver

/-- What holds of every state of the accept loop: while it waits in `accept`
nothing is recorded, nothing is open and no pump runs; while a connection is
served the recorded descriptor is the one accepted, it is the only open one, and
the run flag is set exactly as long as the pump runs; after the loop nothing is
recorded or open. -/
def Inv (lfd : Int) (s : AcceptState) : Prop :=
  s.server.listen_fd = lfd
  ∧ (s.phase = Phase.LISTENING →
      s.server.client_fd = -1 ∧ s.open_fds = [] ∧ s.rx_alive = false ∧ s.server.run = true)
  ∧ (s.phase = Phase.CONNECTED →
      s.server.client_fd = s.fd ∧ 0 ≤ s.fd ∧ s.open_fds = [s.fd]
      ∧ s.server.run = s.rx_alive)
  ∧ (s.phase = Phase.CLOSED →
      s.server.client_fd = -1 ∧ s.open_fds = [] ∧ s.rx_alive = false)

/-- The phases of a run with each stretch of equal consecutive phases counted
once: the transitions an observer sees. -/
def transitions (ps : List Phase) : List Phase :=
  ps.destutter (· ≠ ·)

end Receiver

/-! ## Start-up: when every step succeeds -/

/-- Every fallible step of the listening `kiss_tcp_iface_init` succeeds: socket
creation, address parsing, bind, listen, interface registration, thread
creation. -/
def Receiver.InitEnv.all_ok (env : Receiver.InitEnv) : Bool :=
  decide (0 ≤ env.socket_ret) && decide (env.inet_pton_ret = 1) && decide (0 ≤ env.bind_ret)
    && decide (0 ≤ env.listen_ret) && decide (env.add_interface_ret = CSP_ERR_NONE)
    && decide (env.create_ret = 0)

/-- Every fallible step of the connecting `kiss_tcp_iface_init` succeeds: socket
creation, address parsing, connect, interface registration, thread creation. -/
def Sender.InitEnv.all_ok (env : Sender.InitEnv) : Bool :=
  decide (0 ≤ env.socket_ret) && decide (env.inet_pton_ret = 1) && decide (0 ≤ env.connect_ret)
    && decide (env.add_interface_ret = CSP_ERR_NONE) && decide (env.create_ret = 0)

/-- The calls of a listening `kiss_tcp_iface_init` in which every step succeeds,
in source order, on the descriptor `fd` that `socket` returned. -/
def Receiver.init_calls (fd : Int) : List Effect :=
  [Effect.socket, Effect.setsockopt fd, Effect.inet_pton, Effect.bind fd, Effect.listen fd 1,
   Effect.csp_kiss_add_interface, Effect.csp_iflist_add, Effect.csp_rtable_set,
   Effect.pthread_create ThreadFn.kiss_tcp_accept_loop]

/-- The calls of a connecting `kiss_tcp_iface_init` in which every step
succeeds, in source order, on the descriptor `fd` that `socket` returned. -/
def Sender.init_calls (fd : Int) : List Effect :=
  [Effect.socket, Effect.inet_pton, Effect.connect fd,
   Effect.csp_kiss_add_interface, Effect.csp_iflist_add, Effect.csp_rtable_set,
   Effect.pthread_create ThreadFn.kiss_tcp_rx_loop]

/-! ## Concrete inputs used to exercise the results -/

/-- A listening adapter serving descriptor 5. -/
def sample_receiver : Receiver.kiss_tcp_iface_t :=
  { server := { listen_fd := 3, client_fd := 5, run := true } }

/-- A connecting adapter on descriptor 5. -/
def sample_sender : Sender.kiss_tcp_iface_t :=
  { driver := { sockfd := 5, run := true } }

/-- End of stream. -/
def sample_eof : RecvResult := { rd := 0, errno := 0, data := [] }

/-- A peer sends `1 2 3`; it arrives as `1 2`, an interrupted call, then `3`. -/
def sample_script : List RecvResult :=
  [{ rd := 2, errno := 0, data := [1, 2] }, { rd := -1, errno := 4, data := [] },
   { rd := 1, errno := 0, data := [3] }]

/-- The accept loop as started on listening descriptor 3. -/
def sample_start : Receiver.AcceptState :=
  Receiver.accept_loop_start (Receiver.init_server 3) []

/-- The accept loop after a first peer was accepted on descriptor 5. -/
def sample_connected : Receiver.AcceptState :=
  (Receiver.step sample_start (Receiver.Event.accept_ret 5 0 0)).getD sample_start

/-- The accept loop after the first peer closed its side and the pump
returned; `pthread_join` has not returned yet. -/
def sample_pump_done : Receiver.AcceptState :=
  (Receiver.step sample_connected (Receiver.Event.recv_ret sample_eof)).getD sample_start

/-- A run of the listening `main` in which every call succeeds. -/
def sample_receiver_env : Receiver.MainEnv :=
  { init := { socket_ret := 3, inet_pton_ret := 1, bind_ret := 0, listen_ret := 0
              add_interface_ret := CSP_ERR_NONE, create_ret := 0 }
    router_create_ret := 0
    run_receiver_returns := false }

/-- A run of the connecting `main` in which every call succeeds. -/
def sample_sender_env : Sender.MainEnv :=
  { init := { socket_ret := 3, inet_pton_ret := 1, connect_ret := 0
              add_interface_ret := CSP_ERR_NONE, create_ret := 0 }
    router_create_ret := 0 }

theorem rx_pump_cons_data (fd : Int) (buf : List Byte) (r : RecvResult) (rs : List RecvResult)
    (h : 0 < r.rd) :
    rx_pump true fd buf (r :: rs) =
      { rx_pump true fd (recv_store buf r) rs with
        trace := [Effect.recv fd RX_BUF_SIZE, Effect.csp_kiss_rx (recv_store buf r) r.rd.toNat]
                  ++ (rx_pump true fd (recv_store buf r) rs).trace
        consumed := (rx_pump true fd (recv_store buf r) rs).consumed + 1 } := by
  simp [rx_pump, rx_iter, h]

theorem rx_pump_cons_interrupted (fd : Int) (buf : List Byte) (r : RecvResult)
    (rs : List RecvResult) (h : r.rd < 0) (he : r.errno = EINTR) :
    rx_pump true fd buf (r :: rs) =
      { rx_pump true fd (recv_store buf r) rs with
        trace := [Effect.recv fd RX_BUF_SIZE] ++ (rx_pump true fd (recv_store buf r) rs).trace
        consumed := (rx_pump true fd (recv_store buf r) rs).consumed + 1 } := by
  have h1 : ¬ 0 < r.rd := by omega
  have h2 : ¬ r.rd = 0 := by omega
  simp [rx_pump, rx_iter, h1, h2, he]

theorem rx_pump_cons_stop (fd : Int) (buf : List Byte) (r : RecvResult) (rs : List RecvResult)
    (h : r.stops = true) :
    rx_pump true fd buf (r :: rs) =
      { exited := true, run := false, buf := recv_store buf r
        trace := [Effect.recv fd RX_BUF_SIZE], consumed := 1 } := by
  simp only [RecvResult.stops, Bool.or_eq_true, Bool.and_eq_true, decide_eq_true_eq,
    bne_iff_ne, ne_eq] at h
  rcases h with h | ⟨h, he⟩
  · simp [rx_pump, rx_iter, h]
  · have h1 : ¬ 0 < r.rd := by omega
    have h2 : ¬ r.rd = 0 := by omega
    simp [rx_pump, rx_iter, h1, h2, he]

/-- A result that does not stop the loop is a positive read or an interrupted
call. -/
theorem not_stops_cases (r : RecvResult) (h : r.stops = false) :
    0 < r.rd ∨ (r.rd < 0 ∧ r.errno = EINTR) := by
  simp only [RecvResult.stops, Bool.or_eq_false_iff, decide_eq_false_iff_not,
    Bool.and_eq_false_imp, decide_eq_true_eq, bne_eq_false_iff_eq] at h
  rcases lt_trichotomy r.rd 0 with hlt | heq | hgt
  · exact Or.inr ⟨hlt, h.2 hlt⟩
  · exact absurd heq h.1
  · exact Or.inl hgt

theorem is_data_not_stops (r : RecvResult) (h : r.is_data = true) : r.stops = false := by
  simp only [RecvResult.is_data, Bool.and_eq_true, decide_eq_true_eq] at h
  have h1 : ¬ r.rd = 0 := by omega
  have h2 : ¬ r.rd < 0 := by omega
  simp [RecvResult.stops, h1, h2]

theorem interrupted_not_stops (r : RecvResult) (h : r.interrupted = true) :
    r.stops = false := by
  simp only [RecvResult.interrupted, Bool.and_eq_true, decide_eq_true_eq, beq_iff_eq] at h
  have h1 : ¬ r.rd = 0 := by omega
  simp [RecvResult.stops, h1, h.2]

/-- Over a script whose first stopping result is `r`, the pump leaves the loop
at `r`: it has used exactly the results up to and including `r`, and the run
flag is cleared. -/
theorem rx_pump_stops_at_first (fd : Int) (pre : List RecvResult) (r : RecvResult)
    (post : List RecvResult) (hpre : ∀ x ∈ pre, x.stops = false) (hr : r.stops = true) :
    ∀ buf : List Byte,
      (rx_pump true fd buf (pre ++ r :: post)).exited = true
      ∧ (rx_pump true fd buf (pre ++ r :: post)).run = false
      ∧ (rx_pump true fd buf (pre ++ r :: post)).consumed = pre.length + 1 := by
  induction pre with
  | nil => intro buf; simp [rx_pump_cons_stop fd buf r post hr]
  | cons x xs ih =>
    intro buf
    have hx := hpre x (List.mem_cons_self x xs)
    have ih1 := ih (fun y hy => hpre y (List.mem_cons_of_mem x hy)) (recv_store buf x)
    rcases not_stops_cases x hx with hd | ⟨hn, he⟩
    · simp [rx_pump_cons_data fd buf x _ hd, ih1]
    · simp [rx_pump_cons_interrupted fd buf x _ hn he, ih1]

/-- Over a script without a stopping result the pump uses every result and is
still running: it waits in the next `recv`. -/
theorem rx_pump_keeps_running (fd : Int) (rs : List RecvResult)
    (hrs : ∀ x ∈ rs, x.stops = false) :
    ∀ buf : List Byte,
      (rx_pump true fd buf rs).exited = false
      ∧ (rx_pump true fd buf rs).run = true
      ∧ (rx_pump true fd buf rs).consumed = rs.length := by
  induction rs with
  | nil => intro buf; simp [rx_pump]
  | cons x xs ih =>
    intro buf
    have hx := hrs x (List.mem_cons_self x xs)
    have ih1 := ih (fun y hy => hrs y (List.mem_cons_of_mem x hy)) (recv_store buf x)
    rcases not_stops_cases x hx with hd | ⟨hn, he⟩
    · simp [rx_pump_cons_data fd buf x _ hd, ih1]
    · simp [rx_pump_cons_interrupted fd buf x _ hn he, ih1]

/-- Whenever the pump has left the loop, the run flag is false. -/
theorem rx_pump_exited_run (fd : Int) (rs : List RecvResult) :
    ∀ (run : Bool) (buf : List Byte),
      (rx_pump run fd buf rs).exited = true → (rx_pump run fd buf rs).run = false := by
  induction rs with
  | nil => intro run buf; cases run <;> simp [rx_pump]
  | cons x xs ih =>
    intro run buf
    cases run with
    | false => simp [rx_pump]
    | true =>
      cases hs : x.stops with
      | true => simp [rx_pump_cons_stop fd buf x xs hs]
      | false =>
        rcases not_stops_cases x hs with hd | ⟨hn, he⟩
        · simpa [rx_pump_cons_data fd buf x _ hd] using ih true (recv_store buf x)
        · simpa [rx_pump_cons_interrupted fd buf x _ hn he] using ih true (recv_store buf x)

/-- With the run flag clear on entry the pump leaves at once, without a `recv`. -/
theorem rx_pump_not_running (fd : Int) (buf : List Byte) (rs : List RecvResult) :
    rx_pump false fd buf rs =
      { exited := true, run := false, buf := buf, trace := [], consumed := 0 } := by
  cases rs <;> simp [rx_pump]

/-- The lengths handed to the decoder up to the first stopping result are the
positive counts `recv` returned, in order: an interrupted call and the stopping
result hand nothing over. -/
theorem rx_pump_delivered_lens (fd : Int) (pre : List RecvResult) (r : RecvResult)
    (post : List RecvResult) (hpre : ∀ x ∈ pre, x.stops = false) (hr : r.stops = true) :
    ∀ buf : List Byte,
      delivered_lens (rx_pump true fd buf (pre ++ r :: post)).trace = positive_counts pre := by
  induction pre with
  | nil => intro buf; simp [rx_pump_cons_stop fd buf r post hr, delivered_lens, positive_counts]
  | cons x xs ih =>
    intro buf
    have hx := hpre x (List.mem_cons_self x xs)
    have ih1 := ih (fun y hy => hpre y (List.mem_cons_of_mem x hy)) (recv_store buf x)
    rcases not_stops_cases x hx with hd | ⟨hn, he⟩
    · simp only [delivered_lens, positive_counts] at ih1 ⊢
      simp [rx_pump_cons_data fd buf x _ hd, ih1, hd]
    · have hnd : ¬ 0 < x.rd := by omega
      simp only [delivered_lens, positive_counts] at ih1 ⊢
      simp [rx_pump_cons_interrupted fd buf x _ hn he, ih1, hnd]

/-- The span the decoder reads after a well-formed positive read is exactly
the octets `recv` stored. -/
theorem recv_store_take (buf : List Byte) (r : RecvResult) (h : r.is_data = true) :
    (recv_store buf r).take r.rd.toNat = r.data := by
  simp only [RecvResult.is_data, Bool.and_eq_true, decide_eq_true_eq, beq_iff_eq] at h
  obtain ⟨⟨h0, _⟩, hl⟩ := h
  simp [recv_store, h0, ← hl]

/-- The chunks handed to the decoder, up to the end of stream, are the data of
the positive reads, one chunk per read, in call order. -/
theorem rx_pump_deliveries (fd : Int) (rs : List RecvResult) (r : RecvResult)
    (post : List RecvResult)
    (hrs : ∀ x ∈ rs, x.is_data = true ∨ x.interrupted = true) (hr : r.stops = true) :
    ∀ buf : List Byte,
      deliveries (rx_pump true fd buf (rs ++ r :: post)).trace
        = (rs.filter fun x => decide (0 < x.rd)).map RecvResult.data := by
  induction rs with
  | nil => intro buf; simp [rx_pump_cons_stop fd buf r post hr, deliveries, delivered]
  | cons x xs ih =>
    intro buf
    have ih1 := ih (fun y hy => hrs y (List.mem_cons_of_mem x hy)) (recv_store buf x)
    rcases hrs x (List.mem_cons_self x xs) with hd | hi
    · have hpos : 0 < x.rd := by
        simp only [RecvResult.is_data, Bool.and_eq_true, decide_eq_true_eq] at hd
        exact hd.1.1
      simp only [deliveries] at ih1 ⊢
      simp [rx_pump_cons_data fd buf x _ hpos, ih1, hpos, delivered, recv_store_take buf x hd]
    · simp only [RecvResult.interrupted, Bool.and_eq_true, decide_eq_true_eq, beq_iff_eq] at hi
      have hnd : ¬ 0 < x.rd := by omega
      simp only [deliveries] at ih1 ⊢
      simp [rx_pump_cons_interrupted fd buf x _ hi.1 hi.2, ih1, hnd, delivered]

theorem sent_bytes_eq_join (rs : List RecvResult) :
    sent_bytes rs = ((rs.filter fun x => decide (0 < x.rd)).map RecvResult.data).flatten := by
  induction rs with
  | nil => simp [sent_bytes]
  | cons x xs ih =>
    simp only [sent_bytes] at ih ⊢
    by_cases h : 0 < x.rd
    · simp [h, ih]
    · simp [h, ih]

/-- C3: byte fidelity of the receive pump, in both roles. Started with the run
flag set, over any script of `recv` results made of reads of 1 to 512 octets and
interrupted calls and ended by an end of stream, the chunks handed to
`csp_kiss_rx` are exactly the chunks read, one per positive read and in call
order; their concatenation is the byte sequence the peer sent; every length
handed over is the count `recv` returned, and no chunk is empty. -/
theorem rx_loop_byte_fidelity (rctx : Receiver.kiss_tcp_iface_t)
    (sctx : Sender.kiss_tcp_iface_t) (buf bytes : List Byte) (rs : List RecvResult)
    (eof : RecvResult) (post : List RecvResult)
    (hr : rctx.server.run = true) (hs : sctx.driver.run = true)
    (hrs : ∀ x ∈ rs, x.is_data = true ∨ x.interrupted = true)
    (heof : eof.rd = 0) (hbytes : sent_bytes rs = bytes) :
    ((deliveries (Receiver.kiss_tcp_rx_loop rctx buf (rs ++ eof :: post)).trace).flatten = bytes
      ∧ deliveries (Receiver.kiss_tcp_rx_loop rctx buf (rs ++ eof :: post)).trace
          = (rs.filter fun x => decide (0 < x.rd)).map RecvResult.data
      ∧ delivered_lens (Receiver.kiss_tcp_rx_loop rctx buf (rs ++ eof :: post)).trace
          = positive_counts rs
      ∧ ∀ c ∈ deliveries (Receiver.kiss_tcp_rx_loop rctx buf (rs ++ eof :: post)).trace, c ≠ [])
    ∧ ((deliveries (Sender.kiss_tcp_rx_loop sctx buf (rs ++ eof :: post)).trace).flatten = bytes
      ∧ deliveries (Sender.kiss_tcp_rx_loop sctx buf (rs ++ eof :: post)).trace
          = (rs.filter fun x => decide (0 < x.rd)).map RecvResult.data
      ∧ delivered_lens (Sender.kiss_tcp_rx_loop sctx buf (rs ++ eof :: post)).trace
          = positive_counts rs
      ∧ ∀ c ∈ deliveries (Sender.kiss_tcp_rx_loop sctx buf (rs ++ eof :: post)).trace, c ≠ []) := by
  have hstop : eof.stops = true := by simp [RecvResult.stops, heof]
  have hns : ∀ x ∈ rs, x.stops = false := fun x hx =>
    (hrs x hx).elim (is_data_not_stops x) (interrupted_not_stops x)
  have hne : ∀ c ∈ (rs.filter fun x => decide (0 < x.rd)).map RecvResult.data, c ≠ [] := by
    intro c hc
    obtain ⟨x, hx, rfl⟩ := List.mem_map.1 hc
    obtain ⟨hxm, hpos⟩ := List.mem_filter.1 hx
    have hpos1 : 0 < x.rd := by simpa using hpos
    rcases hrs x hxm with hd | hi
    · simp only [RecvResult.is_data, Bool.and_eq_true, decide_eq_true_eq, beq_iff_eq] at hd
      intro hnil
      have hl : x.data.length = 0 := by simp [hnil]
      omega
    · simp only [RecvResult.interrupted, Bool.and_eq_true, decide_eq_true_eq] at hi
      omega
  have key : ∀ fd : Int,
      (deliveries (rx_pump true fd buf (rs ++ eof :: post)).trace).flatten = bytes
      ∧ deliveries (rx_pump true fd buf (rs ++ eof :: post)).trace
          = (rs.filter fun x => decide (0 < x.rd)).map RecvResult.data
      ∧ delivered_lens (rx_pump true fd buf (rs ++ eof :: post)).trace = positive_counts rs
      ∧ ∀ c ∈ deliveries (rx_pump true fd buf (rs ++ eof :: post)).trace, c ≠ [] := by
    intro fd
    have hd := rx_pump_deliveries fd rs eof post hrs hstop buf
    refine ⟨?_, hd, rx_pump_delivered_lens fd rs eof post hns hstop buf, ?_⟩
    · rw [hd, ← sent_bytes_eq_join, hbytes]
    · rw [hd]; exact hne
  constructor
  · simpa [Receiver.kiss_tcp_rx_loop, hr] using key rctx.server.client_fd
  · simpa [Sender.kiss_tcp_rx_loop, hs] using key sctx.driver.sockfd

theorem rx_loop_byte_fidelity_witness :
    (sample_receiver.server.run = true ∧ sample_sender.driver.run = true
      ∧ (∀ x ∈ sample_script, x.is_data = true ∨ x.interrupted = true)
      ∧ sample_eof.rd = 0 ∧ sent_bytes sample_script = [1, 2, 3])
    ∧ (deliveries (Receiver.kiss_tcp_rx_loop sample_receiver [] (sample_script ++ sample_eof :: [])).trace).flatten
        = [1, 2, 3]
    ∧ (deliveries (Sender.kiss_tcp_rx_loop sample_sender [] (sample_script ++ sample_eof :: [])).trace).flatten
        = [1, 2, 3] :=
  ⟨⟨rfl, rfl, by decide, rfl, rfl⟩,
   (rx_loop_byte_fidelity sample_receiver sample_sender [] [1, 2, 3] sample_script sample_eof []
      rfl rfl (by decide) rfl rfl).1.1,
   (rx_loop_byte_fidelity sample_receiver sample_sender [] [1, 2, 3] sample_script sample_eof []
      rfl rfl (by decide) rfl rfl).2.1⟩

/-- C4: the stop rule of the receive pump, in both roles. Started with the run
flag set, the loop is left exactly at the first `recv` result that is a
zero-length read or a failure whose `errno` is not `EINTR`: it uses the results
up to and including that one and no more, and over results none of which is of
that kind it is still running after the last. A failure with `errno == EINTR`
makes one iteration whose only call is the `recv` and which goes round again, so
nothing reaches the decoder for it: the lengths handed over are the positive
counts only. Whenever the loop has been left, from any state, the run flag is
false. -/
theorem rx_loop_stop_rule (rctx : Receiver.kiss_tcp_iface_t)
    (sctx : Sender.kiss_tcp_iface_t) (buf : List Byte) (pre : List RecvResult)
    (r : RecvResult) (post : List RecvResult)
    (hr : rctx.server.run = true) (hs : sctx.driver.run = true)
    (hpre : ∀ x ∈ pre, x.stops = false) (hstop : r.stops = true) :
    ((Receiver.kiss_tcp_rx_loop rctx buf (pre ++ r :: post)).exited = true
      ∧ (Receiver.kiss_tcp_rx_loop rctx buf (pre ++ r :: post)).consumed = pre.length + 1
      ∧ (Receiver.kiss_tcp_rx_loop rctx buf (pre ++ r :: post)).ctx.server.run = false
      ∧ delivered_lens (Receiver.kiss_tcp_rx_loop rctx buf (pre ++ r :: post)).trace
          = positive_counts pre
      ∧ (Receiver.kiss_tcp_rx_loop rctx buf pre).exited = false
      ∧ (Receiver.kiss_tcp_rx_loop rctx buf pre).consumed = pre.length
      ∧ ∀ (c : Receiver.kiss_tcp_iface_t) (b : List Byte) (rs : List RecvResult),
          (Receiver.kiss_tcp_rx_loop c b rs).exited = true →
          (Receiver.kiss_tcp_rx_loop c b rs).ctx.server.run = false)
    ∧ ((Sender.kiss_tcp_rx_loop sctx buf (pre ++ r :: post)).exited = true
      ∧ (Sender.kiss_tcp_rx_loop sctx buf (pre ++ r :: post)).consumed = pre.length + 1
      ∧ (Sender.kiss_tcp_rx_loop sctx buf (pre ++ r :: post)).ctx.driver.run = false
      ∧ delivered_lens (Sender.kiss_tcp_rx_loop sctx buf (pre ++ r :: post)).trace
          = positive_counts pre
      ∧ (Sender.kiss_tcp_rx_loop sctx buf pre).exited = false
      ∧ (Sender.kiss_tcp_rx_loop sctx buf pre).consumed = pre.length
      ∧ ∀ (c : Sender.kiss_tcp_iface_t) (b : List Byte) (rs : List RecvResult),
          (Sender.kiss_tcp_rx_loop c b rs).exited = true →
          (Sender.kiss_tcp_rx_loop c b rs).ctx.driver.run = false)
    ∧ ∀ (fd : Int) (b : List Byte) (x : RecvResult), x.interrupted = true →
        rx_iter fd b x = (RxNext.again, b, [Effect.recv fd RX_BUF_SIZE]) := by
  have key : ∀ fd : Int,
      (rx_pump true fd buf (pre ++ r :: post)).exited = true
      ∧ (rx_pump true fd buf (pre ++ r :: post)).consumed = pre.length + 1
      ∧ (rx_pump true fd buf (pre ++ r :: post)).run = false
      ∧ delivered_lens (rx_pump true fd buf (pre ++ r :: post)).trace = positive_counts pre
      ∧ (rx_pump true fd buf pre).exited = false
      ∧ (rx_pump true fd buf pre).consumed = pre.length := by
    intro fd
    obtain ⟨h1, h2, h3⟩ := rx_pump_stops_at_first fd pre r post hpre hstop buf
    obtain ⟨h4, _, h6⟩ := rx_pump_keeps_running fd pre hpre buf
    exact ⟨h1, h3, h2, rx_pump_delivered_lens fd pre r post hpre hstop buf, h4, h6⟩
  refine ⟨?_, ?_, ?_⟩
  · obtain ⟨h1, h2, h3, h4, h5, h6⟩ := key rctx.server.client_fd
    refine ⟨?_, ?_, ?_, ?_, ?_, ?_, ?_⟩
    · simpa [Receiver.kiss_tcp_rx_loop, hr] using h1
    · simpa [Receiver.kiss_tcp_rx_loop, hr] using h2
    · simpa [Receiver.kiss_tcp_rx_loop, hr] using h3
    · simpa [Receiver.kiss_tcp_rx_loop, hr] using h4
    · simpa [Receiver.kiss_tcp_rx_loop, hr] using h5
    · simpa [Receiver.kiss_tcp_rx_loop, hr] using h6
    · intro c b rs h
      exact rx_pump_exited_run c.server.client_fd rs c.server.run b h
  · obtain ⟨h1, h2, h3, h4, h5, h6⟩ := key sctx.driver.sockfd
    refine ⟨?_, ?_, ?_, ?_, ?_, ?_, ?_⟩
    · simpa [Sender.kiss_tcp_rx_loop, hs] using h1
    · simpa [Sender.kiss_tcp_rx_loop, hs] using h2
    · simpa [Sender.kiss_tcp_rx_loop, hs] using h3
    · simpa [Sender.kiss_tcp_rx_loop, hs] using h4
    · simpa [Sender.kiss_tcp_rx_loop, hs] using h5
    · simpa [Sender.kiss_tcp_rx_loop, hs] using h6
    · intro c b rs h
      exact rx_pump_exited_run c.driver.sockfd rs c.driver.run b h
  · intro fd b x hx
    simp only [RecvResult.interrupted, Bool.and_eq_true, decide_eq_true_eq, beq_iff_eq] at hx
    have h1 : ¬ 0 < x.rd := by omega
    have h2 : ¬ x.rd = 0 := by omega
    simp [rx_iter, recv_store, h1, h2, hx.2]

theorem rx_loop_stop_rule_witness :
    (sample_receiver.server.run = true ∧ sample_sender.driver.run = true
      ∧ (∀ x ∈ sample_script, x.stops = false) ∧ sample_eof.stops = true)
    ∧ (Receiver.kiss_tcp_rx_loop sample_receiver [] (sample_script ++ sample_eof :: [sample_eof])).consumed
        = 4
    ∧ (Sender.kiss_tcp_rx_loop sample_sender [] (sample_script ++ sample_eof :: [sample_eof])).ctx.driver.run
        = false :=
  ⟨⟨rfl, rfl, by decide, by decide⟩,
   (rx_loop_stop_rule sample_receiver sample_sender [] sample_script sample_eof [sample_eof]
      rfl rfl (by decide) (by decide)).1.2.1,
   (rx_loop_stop_rule sample_receiver sample_sender [] sample_script sample_eof [sample_eof]
      rfl rfl (by decide) (by decide)).2.1.2.2.1⟩

/-! ## The accept loop -/

namespace Receiver

theorem inv_start (lfd : Int) (buf : List Byte) :
    Inv lfd (accept_loop_start (init_server lfd) buf) := by
  simp [Inv, accept_loop_start, accept_loop_test, init_server]

theorem inv_step (lfd : Int) (s s1 : AcceptState) (e : Event) (hinv : Inv lfd s)
    (hstep : step s e = some s1) : Inv lfd s1 := by
  obtain ⟨hl, hL, hC, hX⟩ := hinv
  cases e with
  | accept_ret fd errno rc =>
    simp only [step] at hstep
    split_ifs at hstep with hp hfd herr hrc
    all_goals simp only [Option.some.injEq] at hstep
    all_goals subst hstep
    all_goals obtain ⟨h1, h2, h3, h4⟩ := hL hp
    · simp [Inv, accept_loop_test, hl, h1, h2, h3, h4]
    · simp [Inv, hl, h1, h2, h3]
    · simp [Inv, hl, h2, h3]
    · have : 0 ≤ fd := by omega
      simp [Inv, rx_loop_test, hl, h2, this]
  | recv_ret r =>
    simp only [step] at hstep
    split_ifs at hstep with hp
    obtain ⟨h1, h2, h3, h4⟩ := hC hp.1
    split at hstep
    all_goals simp only [Option.some.injEq] at hstep
    all_goals subst hstep
    · have hrun : s.server.run = true := by rw [h4]; exact hp.2
      simp [Inv, rx_loop_test, hrun, hl, hp.1, h1, h2, h3]
    · simp [Inv, hl, hp.1, h1, h2, h3]
  | join_ret =>
    simp only [step] at hstep
    split_ifs at hstep with hp
    obtain ⟨h1, h2, h3, h4⟩ := hC hp.1
    simp only [Option.some.injEq] at hstep
    subst hstep
    simp [Inv, accept_loop_test, hl, h3, hp.2]

theorem reachable_inv (lfd : Int) (s : AcceptState) (h : Reachable lfd s) : Inv lfd s := by
  induction h with
  | start buf => exact inv_start lfd buf
  | next e _ hstep ih => exact inv_step lfd _ _ e ih hstep

theorem rx_iter_of_not_stops (fd : Int) (buf : List Byte) (x : RecvResult)
    (h : x.stops = false) :
    ∃ b t, rx_iter fd buf x = (RxNext.again, b, t) := by
  refine ⟨(rx_iter fd buf x).2.1, (rx_iter fd buf x).2.2, ?_⟩
  rcases not_stops_cases x h with hd | ⟨hn, he⟩
  · simp [rx_iter, hd]
  · have h1 : ¬ 0 < x.rd := by omega
    have h2 : ¬ x.rd = 0 := by omega
    simp [rx_iter, h1, h2, he]

theorem rx_iter_of_stops (fd : Int) (buf : List Byte) (x : RecvResult)
    (h : x.stops = true) :
    ∃ b t, rx_iter fd buf x = (RxNext.stop, b, t) := by
  simp only [RecvResult.stops, Bool.or_eq_true, Bool.and_eq_true, decide_eq_true_eq,
    bne_iff_ne, ne_eq] at h
  refine ⟨(rx_iter fd buf x).2.1, (rx_iter fd buf x).2.2, ?_⟩
  rcases h with h | ⟨h, he⟩
  · simp [rx_iter, h]
  · have h1 : ¬ 0 < x.rd := by omega
    have h2 : ¬ x.rd = 0 := by omega
    simp [rx_iter, h1, h2, he]

/-- While the pump handles results that do not stop it, the accept loop stays
in `CONNECTED` and nothing but the buffer and the trace changes. -/
theorem phases_serving (pre : List RecvResult) (hpre : ∀ x ∈ pre, x.stops = false)
    (rest : List Event) :
    ∀ s : AcceptState, s.phase = Phase.CONNECTED → s.rx_alive = true → s.server.run = true →
      ∃ s1 : AcceptState, s1.phase = Phase.CONNECTED ∧ s1.rx_alive = true
        ∧ s1.server = s.server ∧ s1.fd = s.fd ∧ s1.open_fds = s.open_fds
        ∧ phases s (pre.map Event.recv_ret ++ rest)
            = List.replicate pre.length Phase.CONNECTED ++ phases s1 rest := by
  induction pre with
  | nil => intro s hp ha hr; exact ⟨s, hp, ha, rfl, rfl, rfl, by simp⟩
  | cons x xs ih =>
    intro s hp ha hr
    obtain ⟨b, t, hbt⟩ := rx_iter_of_not_stops s.server.client_fd s.rx_buf x
      (hpre x (List.mem_cons_self x xs))
    have hstep : step s (Event.recv_ret x)
        = some (rx_loop_test { s with rx_buf := b, trace := s.trace ++ t }) := by
      simp [step, hp, ha, hbt]
    have hs1 : rx_loop_test { s with rx_buf := b, trace := s.trace ++ t }
        = { s with rx_buf := b, trace := s.trace ++ t, rx_alive := true } := by
      simp [rx_loop_test, hr]
    obtain ⟨s2, h1, h2, h3, h4, h5, h6⟩ :=
      ih (fun y hy => hpre y (List.mem_cons_of_mem x hy))
        { s with rx_buf := b, trace := s.trace ++ t, rx_alive := true } hp rfl hr
    refine ⟨s2, h1, h2, h3, h4, h5, ?_⟩
    rw [hs1] at hstep
    have hcons : phases s (Event.recv_ret x :: (xs.map Event.recv_ret ++ rest))
        = s.phase :: phases { s with rx_buf := b, trace := s.trace ++ t, rx_alive := true }
            (xs.map Event.recv_ret ++ rest) := by
      simp only [phases, hstep]
    rw [List.map_cons, List.cons_append, hcons, h6, hp, List.length_cons,
      List.replicate_succ, List.cons_append]

theorem replicate_append_cons (n : Nat) (p : Phase) (l : List Phase) :
    List.replicate n p ++ p :: l = p :: (List.replicate n p ++ l) := by
  induction n with
  | zero => simp
  | succ n ih => simp [List.replicate_succ, ih]

theorem destutter_replicate (p : Phase) (n : Nat) (l : List Phase) :
    List.destutter' (· ≠ ·) p (List.replicate n p ++ l) = List.destutter' (· ≠ ·) p l := by
  induction n with
  | zero => simp
  | succ n ih => simp [List.replicate_succ, List.destutter', ih]

/-- Two peers served one after the other: the phases passed through. -/
theorem phases_two_peers (lfd : Int) (buf : List Byte) (fd1 fd2 e1 e2 : Int)
    (pre : List RecvResult) (stop : RecvResult)
    (h1 : 0 ≤ fd1) (h2 : 0 ≤ fd2) (hpre : ∀ x ∈ pre, x.stops = false)
    (hstop : stop.stops = true) :
    phases (accept_loop_start (init_server lfd) buf)
        (Event.accept_ret fd1 e1 0 ::
          (pre.map Event.recv_ret ++
            [Event.recv_ret stop, Event.join_ret, Event.accept_ret fd2 e2 0]))
      = Phase.LISTENING :: (List.replicate pre.length Phase.CONNECTED ++
          [Phase.CONNECTED, Phase.CONNECTED, Phase.LISTENING, Phase.CONNECTED]) := by
  have hn1 : ¬ fd1 < 0 := by omega
  have hn2 : ¬ fd2 < 0 := by omega
  obtain ⟨s1, hs1⟩ : ∃ s1, step (accept_loop_start (init_server lfd) buf)
      (Event.accept_ret fd1 e1 0) = some s1 := by
    simp [step, accept_loop_start, accept_loop_test, init_server, hn1]
  have hs1c := hs1
  simp only [step, accept_loop_start, accept_loop_test, init_server, hn1, rx_loop_test,
    if_true, if_false, ne_eq, not_true_eq_false, Option.some.injEq] at hs1c
  obtain ⟨s2, p1, p2, p3, p4, p5, p6⟩ := phases_serving pre hpre
    [Event.recv_ret stop, Event.join_ret, Event.accept_ret fd2 e2 0] s1
    (by rw [← hs1c]) (by rw [← hs1c]) (by rw [← hs1c])
  obtain ⟨b, t, hbt⟩ := rx_iter_of_stops s2.server.client_fd s2.rx_buf stop hstop
  have hstart : (accept_loop_start (init_server lfd) buf).phase = Phase.LISTENING := by
    simp [accept_loop_start, accept_loop_test, init_server]
  simp only [phases, hs1, hstart, p6]
  simp [phases, step, p1, p2, hbt, accept_loop_test, rx_loop_test, hn2]

theorem rx_loop_test_phase (s : AcceptState) : (rx_loop_test s).phase = s.phase := by
  unfold rx_loop_test; split <;> rfl

theorem step_closed (s : AcceptState) (h : s.phase = Phase.CLOSED) (e : Event) :
    step s e = none := by
  cases e <;> simp [step, h]

theorem exec_closed (s : AcceptState) (h : s.phase = Phase.CLOSED) (evs : List Event)
    (s1 : AcceptState) (hx : exec s evs = some s1) : s1 = s := by
  cases evs with
  | nil => simpa [exec] using hx.symm
  | cons e es => simp [exec, step_closed s h e] at hx

/-- After a step from a state that satisfies the invariant the loop is closed
exactly when the step was an `accept` that failed with an `errno` other than
`EINTR`, or an `accept` after which the pump thread could not be created. -/
theorem step_closed_iff (lfd : Int) (s s1 : AcceptState) (e : Event) (hinv : Inv lfd s)
    (hstep : step s e = some s1) :
    s1.phase = Phase.CLOSED ↔
      ∃ fd errno rc, e = Event.accept_ret fd errno rc
        ∧ ((fd < 0 ∧ errno ≠ EINTR) ∨ (0 ≤ fd ∧ rc ≠ 0)) := by
  obtain ⟨hl, hL, hC, hX⟩ := hinv
  cases e with
  | accept_ret fd errno rc =>
    simp only [step] at hstep
    split_ifs at hstep with hp hfd herr hrc
    all_goals simp only [Option.some.injEq] at hstep
    all_goals subst hstep
    all_goals obtain ⟨h1, h2, h3, h4⟩ := hL hp
    · constructor
      · intro h
        simp [accept_loop_test, h4] at h
      · rintro ⟨fd1, errno1, rc1, he, h⟩
        cases he
        rcases h with ⟨_, h⟩ | ⟨h, _⟩
        · exact absurd herr h
        · omega
    · exact ⟨fun _ => ⟨fd, errno, rc, rfl, Or.inl ⟨hfd, herr⟩⟩, fun _ => rfl⟩
    · exact ⟨fun _ => ⟨fd, errno, rc, rfl, Or.inr ⟨by omega, hrc⟩⟩, fun _ => rfl⟩
    · constructor
      · intro h
        simp [rx_loop_test_phase] at h
      · rintro ⟨fd1, errno1, rc1, he, h⟩
        cases he
        rcases h with ⟨h, _⟩ | ⟨_, h⟩
        · omega
        · exact absurd (by simpa using hrc) h
  | recv_ret r =>
    simp only [step] at hstep
    split_ifs at hstep with hp
    split at hstep
    all_goals simp only [Option.some.injEq] at hstep
    all_goals subst hstep
    · simp [rx_loop_test_phase, hp.1]
    · simp [hp.1]
  | join_ret =>
    simp only [step] at hstep
    split_ifs at hstep with hp
    simp only [Option.some.injEq] at hstep
    subst hstep
    simp [accept_loop_test]

end Receiver

/-- A successful listening initialisation leaves no connection recorded
(`client_fd = -1`) and the run flag set. -/
theorem Receiver.init_leaves_no_connection (ctx : Receiver.kiss_tcp_iface_t)
    (i : Receiver.InitEnv) (h : i.all_ok = true) :
    (Receiver.kiss_tcp_iface_init ctx i).ctx.server
      = Receiver.init_server i.socket_ret := by
  simp only [Receiver.InitEnv.all_ok, Bool.and_eq_true, decide_eq_true_eq] at h
  obtain ⟨⟨⟨⟨⟨h1, h2⟩, h3⟩, h4⟩, h5⟩, h6⟩ := h
  have n1 : ¬ i.socket_ret < 0 := by omega
  have n3 : ¬ i.bind_ret < 0 := by omega
  have n4 : ¬ i.listen_ret < 0 := by omega
  simp [Receiver.kiss_tcp_iface_init, Receiver.init_server, n1, h2, n3, n4, h5, h6]

/-- Whenever the accept loop is not serving a connection (it waits in `accept`,
or it has ended), a transmit finds no connection: it returns `CSP_ERR_NOCONN`
and makes no call. -/
theorem Receiver.tx_while_not_connected (lfd : Int) (s : Receiver.AcceptState)
    (hs : Receiver.Reachable lfd s) (hp : s.phase ≠ Receiver.Phase.CONNECTED)
    (data : List Byte) (len : Nat) (send_ret : Int) :
    (Receiver.kiss_tcp_driver_tx { server := s.server } data len send_ret).ret = CSP_ERR_NOCONN
    ∧ (Receiver.kiss_tcp_driver_tx { server := s.server } data len send_ret).trace = [] := by
  obtain ⟨_, hL, _, hX⟩ := Receiver.reachable_inv lfd s hs
  have hfd : s.server.client_fd = -1 := by
    cases hph : s.phase with
    | LISTENING => exact (hL hph).1
    | CONNECTED => exact absurd hph hp
    | CLOSED => exact (hX hph).1
  simp [Receiver.kiss_tcp_driver_tx, hfd]

/-- C2: in the listening role, when no connection is live (`client_fd < 0`),
`kiss_tcp_driver_tx` returns `CSP_ERR_NOCONN`, makes no call at all (no lock, no
`send`) and leaves the adapter as it was, for every byte sequence, length and
whatever `send` would have returned. That is the state a successful
`kiss_tcp_iface_init` leaves before any `accept`, and the state of the accept
loop whenever it is not serving a connection, in particular after each
connection is retired. -/
theorem tx_without_connection (ctx : Receiver.kiss_tcp_iface_t) (data : List Byte)
    (len : Nat) (send_ret : Int) (i : Receiver.InitEnv) (lfd : Int)
    (s : Receiver.AcceptState)
    (h : ctx.server.client_fd < 0) (hi : i.all_ok = true)
    (hs : Receiver.Reachable lfd s) (hp : s.phase ≠ Receiver.Phase.CONNECTED) :
    ((Receiver.kiss_tcp_driver_tx ctx data len send_ret).ret = CSP_ERR_NOCONN
      ∧ (Receiver.kiss_tcp_driver_tx ctx data len send_ret).trace = []
      ∧ (Receiver.kiss_tcp_driver_tx ctx data len send_ret).ctx = ctx)
    ∧ (Receiver.kiss_tcp_iface_init ctx i).ctx.server.client_fd < 0
    ∧ s.server.client_fd < 0 := by
  refine ⟨by simp [Receiver.kiss_tcp_driver_tx, h], ?_, ?_⟩
  · rw [Receiver.init_leaves_no_connection ctx i hi]
    simp [Receiver.init_server]
  · obtain ⟨_, hL, _, hX⟩ := Receiver.reachable_inv lfd s hs
    cases hph : s.phase with
    | LISTENING => rw [(hL hph).1]; decide
    | CONNECTED => exact absurd hph hp
    | CLOSED => rw [(hX hph).1]; decide

theorem tx_without_connection_witness :
    ((Receiver.kiss_tcp_iface_init Receiver.g_kiss_iface sample_receiver_env.init).ctx.server.client_fd
        < 0
      ∧ sample_receiver_env.init.all_ok = true ∧ Receiver.Reachable 3 sample_start
      ∧ sample_start.phase ≠ Receiver.Phase.CONNECTED)
    ∧ (Receiver.kiss_tcp_driver_tx
        (Receiver.kiss_tcp_iface_init Receiver.g_kiss_iface sample_receiver_env.init).ctx
        [1, 2, 3] 3 3).ret = CSP_ERR_NOCONN
    ∧ (Receiver.kiss_tcp_driver_tx
        (Receiver.kiss_tcp_iface_init Receiver.g_kiss_iface sample_receiver_env.init).ctx
        [1, 2, 3] 3 3).trace = [] :=
  ⟨⟨by decide, by decide, Receiver.Reachable.start [], by decide⟩,
   (tx_without_connection
      (Receiver.kiss_tcp_iface_init Receiver.g_kiss_iface sample_receiver_env.init).ctx
      [1, 2, 3] 3 3 sample_receiver_env.init 3 sample_start
      (by decide) (by decide) (Receiver.Reachable.start []) (by decide)).1.1,
   (tx_without_connection
      (Receiver.kiss_tcp_iface_init Receiver.g_kiss_iface sample_receiver_env.init).ctx
      [1, 2, 3] 3 3 sample_receiver_env.init 3 sample_start
      (by decide) (by decide) (Receiver.Reachable.start []) (by decide)).1.2.1⟩

/-- C5: a single active connection in the listening role. In every state the
accept loop (with the pump it is joined to) can reach, at most one accepted
descriptor is open, and a recorded connection (`client_fd ≥ 0`) is that one
descriptor, held in phase `CONNECTED`; whenever the loop is in `accept`, the
earlier connection is retired (`client_fd = -1`, its descriptor closed) and its
pump has ended; while a connection is served no `accept` can return, so a
second peer is not accepted; and two peers served one after the other, whatever
the first one sent before it stopped, show the transitions `LISTENING`,
`CONNECTED`, `LISTENING`, `CONNECTED`. -/
theorem single_active_connection (lfd : Int) (s : Receiver.AcceptState) (buf : List Byte)
    (fd1 fd2 e1 e2 : Int) (pre : List RecvResult) (stop : RecvResult)
    (hs : Receiver.Reachable lfd s) (h1 : 0 ≤ fd1) (h2 : 0 ≤ fd2)
    (hpre : ∀ x ∈ pre, x.stops = false) (hstop : stop.stops = true) :
    s.open_fds.length ≤ 1
    ∧ (0 ≤ s.server.client_fd →
        s.phase = Receiver.Phase.CONNECTED ∧ s.open_fds = [s.server.client_fd])
    ∧ (s.phase = Receiver.Phase.LISTENING →
        s.server.client_fd = -1 ∧ s.open_fds = [] ∧ s.rx_alive = false)
    ∧ (s.phase = Receiver.Phase.CONNECTED →
        ∀ fd errno rc : Int, Receiver.step s (Receiver.Event.accept_ret fd errno rc) = none)
    ∧ Receiver.transitions
        (Receiver.phases (Receiver.accept_loop_start (Receiver.init_server lfd) buf)
          (Receiver.Event.accept_ret fd1 e1 0 ::
            (pre.map Receiver.Event.recv_ret ++
              [Receiver.Event.recv_ret stop, Receiver.Event.join_ret,
               Receiver.Event.accept_ret fd2 e2 0])))
        = [Receiver.Phase.LISTENING, Receiver.Phase.CONNECTED,
           Receiver.Phase.LISTENING, Receiver.Phase.CONNECTED] := by
  obtain ⟨_, hL, hC, hX⟩ := Receiver.reachable_inv lfd s hs
  refine ⟨?_, ?_, ?_, ?_, ?_⟩
  · cases hp : s.phase with
    | LISTENING => simp [(hL hp).2.1]
    | CONNECTED => simp [(hC hp).2.2.1]
    | CLOSED => simp [(hX hp).2.1]
  · intro hfd
    cases hp : s.phase with
    | LISTENING => have := (hL hp).1; omega
    | CONNECTED =>
      obtain ⟨c1, _, c3, _⟩ := hC hp
      exact ⟨rfl, by rw [c3, c1]⟩
    | CLOSED => have := (hX hp).1; omega
  · intro hp
    obtain ⟨a1, a2, a3, _⟩ := hL hp
    exact ⟨a1, a2, a3⟩
  · intro hp fd errno rc
    simp [Receiver.step, hp]
  · rw [Receiver.phases_two_peers lfd buf fd1 fd2 e1 e2 pre stop h1 h2 hpre hstop]
    rw [Receiver.replicate_append_cons]
    simp [Receiver.transitions, List.destutter, List.destutter', Receiver.destutter_replicate]

theorem single_active_connection_witness :
    (Receiver.Reachable 3 sample_connected ∧ (0 : Int) ≤ 5 ∧ (0 : Int) ≤ 6
      ∧ (∀ x ∈ sample_script, x.stops = false) ∧ sample_eof.stops = true)
    ∧ sample_connected.open_fds.length ≤ 1
    ∧ (sample_connected.phase = Receiver.Phase.CONNECTED →
        ∀ fd errno rc : Int,
          Receiver.step sample_connected (Receiver.Event.accept_ret fd errno rc) = none)
    ∧ Receiver.transitions
        (Receiver.phases (Receiver.accept_loop_start (Receiver.init_server 3) [])
          (Receiver.Event.accept_ret 5 0 0 ::
            (sample_script.map Receiver.Event.recv_ret ++
              [Receiver.Event.recv_ret sample_eof, Receiver.Event.join_ret,
               Receiver.Event.accept_ret 6 0 0])))
        = [Receiver.Phase.LISTENING, Receiver.Phase.CONNECTED,
           Receiver.Phase.LISTENING, Receiver.Phase.CONNECTED] :=
  have hreach : Receiver.Reachable 3 sample_connected :=
    Receiver.Reachable.next (Receiver.Event.accept_ret 5 0 0) (Receiver.Reachable.start [])
      (by decide)
  ⟨⟨hreach, by decide, by decide, by decide, by decide⟩,
   (single_active_connection 3 sample_connected [] 5 6 0 0 sample_script sample_eof
      hreach (by decide) (by decide) (by decide) (by decide)).1,
   (single_active_connection 3 sample_connected [] 5 6 0 0 sample_script sample_eof
      hreach (by decide) (by decide) (by decide) (by decide)).2.2.2.1,
   (single_active_connection 3 sample_connected [] 5 6 0 0 sample_script sample_eof
      hreach (by decide) (by decide) (by decide) (by decide)).2.2.2.2⟩

/-- C6 fails as stated: after a first peer is accepted and closes its side the
pump has cleared `server.run`; when `pthread_join` returns the accept loop sets
the flag back to true and is in `LISTENING` again, not `CLOSED`; and the next
`accept` returns and a new connection (descriptor 6) is recorded, the second
`accept` of the run. -/
theorem run_flag_set_again_after_pump_exit :
    (Receiver.exec sample_start
        [Receiver.Event.accept_ret 5 0 0, Receiver.Event.recv_ret sample_eof]).map
      (fun s => (s.phase, s.rx_alive, s.server.run, Receiver.accept_count s.trace))
      = some (Receiver.Phase.CONNECTED, false, false, 1)
    ∧ (Receiver.exec sample_start
        [Receiver.Event.accept_ret 5 0 0, Receiver.Event.recv_ret sample_eof,
         Receiver.Event.join_ret]).map
      (fun s => (s.phase, s.server.run))
      = some (Receiver.Phase.LISTENING, true)
    ∧ (Receiver.exec sample_start
        [Receiver.Event.accept_ret 5 0 0, Receiver.Event.recv_ret sample_eof,
         Receiver.Event.join_ret, Receiver.Event.accept_ret 6 0 0]).map
      (fun s => (s.phase, s.server.client_fd, s.server.run, Receiver.accept_count s.trace))
      = some (Receiver.Phase.CONNECTED, 6, true, 2) := by
  decide

/-- C6 as amended: in the listening role `server.run` is cleared by every end
of the receive pump and set again by the accept loop. When the pump meets a
stopping result it clears the flag; when `pthread_join` then returns, the accept
loop retires the connection (descriptor closed, `client_fd = -1`), sets the flag
back to true and is in `LISTENING` again. A step ends in `CLOSED` exactly when it
is an `accept` that failed with an `errno` other than `EINTR`, or an `accept`
after which the pump thread could not be created. In `CLOSED` no event can
happen any more: no `accept` returns, no connection is recorded and the state,
the flag included, stays as it is. -/
theorem run_flag_rearmed_until_loop_exit (lfd : Int) (s : Receiver.AcceptState)
    (hs : Receiver.Reachable lfd s) :
    (s.phase = Receiver.Phase.CONNECTED → s.rx_alive = true →
      ∀ r : RecvResult, r.stops = true →
        ∃ s1, Receiver.step s (Receiver.Event.recv_ret r) = some s1
          ∧ s1.phase = Receiver.Phase.CONNECTED ∧ s1.rx_alive = false
          ∧ s1.server.run = false)
    ∧ (s.phase = Receiver.Phase.CONNECTED → s.rx_alive = false →
        s.server.run = false
        ∧ ∃ s1, Receiver.step s Receiver.Event.join_ret = some s1
          ∧ s1.phase = Receiver.Phase.LISTENING ∧ s1.server.run = true
          ∧ s1.server.client_fd = -1 ∧ s1.open_fds = [])
    ∧ (∀ (e : Receiver.Event) (s1 : Receiver.AcceptState), Receiver.step s e = some s1 →
        (s1.phase = Receiver.Phase.CLOSED ↔
          ∃ fd errno rc, e = Receiver.Event.accept_ret fd errno rc
            ∧ ((fd < 0 ∧ errno ≠ EINTR) ∨ (0 ≤ fd ∧ rc ≠ 0))))
    ∧ (s.phase = Receiver.Phase.CLOSED →
        (∀ e : Receiver.Event, Receiver.step s e = none)
        ∧ ∀ (evs : List Receiver.Event) (s1 : Receiver.AcceptState),
            Receiver.exec s evs = some s1 → s1 = s) := by
  have hinv := Receiver.reachable_inv lfd s hs
  obtain ⟨_, hL, hC, hX⟩ := hinv
  refine ⟨?_, ?_, ?_, ?_⟩
  · intro hp ha r hr
    obtain ⟨b, t, hbt⟩ := Receiver.rx_iter_of_stops s.server.client_fd s.rx_buf r hr
    simp [Receiver.step, hp, ha, hbt]
  · intro hp ha
    obtain ⟨_, _, c3, c4⟩ := hC hp
    refine ⟨by rw [c4, ha], ?_⟩
    simp [Receiver.step, hp, ha, Receiver.accept_loop_test, c3]
  · intro e s1 hstep
    exact Receiver.step_closed_iff lfd s s1 e (Receiver.reachable_inv lfd s hs) hstep
  · intro hp
    exact ⟨Receiver.step_closed s hp, Receiver.exec_closed s hp⟩

theorem run_flag_rearmed_until_loop_exit_witness :
    Receiver.Reachable 3 sample_pump_done
    ∧ sample_pump_done.server.run = false
    ∧ ∃ s1, Receiver.step sample_pump_done Receiver.Event.join_ret = some s1
        ∧ s1.phase = Receiver.Phase.LISTENING ∧ s1.server.run = true
        ∧ s1.server.client_fd = -1 ∧ s1.open_fds = [] :=
  have hreach : Receiver.Reachable 3 sample_pump_done :=
    Receiver.Reachable.next (Receiver.Event.recv_ret sample_eof)
      (Receiver.Reachable.next (Receiver.Event.accept_ret 5 0 0) (Receiver.Reachable.start [])
        (by decide : Receiver.step sample_start (Receiver.Event.accept_ret 5 0 0)
          = some sample_connected))
      (by decide)
  ⟨hreach, (run_flag_rearmed_until_loop_exit 3 sample_pump_done hreach).2.1
    (by decide) (by decide)⟩

/-! ## Transmit after the pump has ended, and the calls a transmit makes

The model gives every `send` call a return value; a `send` that does not return
(the process is ended by a signal) is outside it. -/

/-- C7, evaluated at the failing input: in the connecting role, after the pump
has met the end of stream and cleared `driver.run`, a transmit of `1 2 3` does
not return `CSP_ERR_NOCONN`: it calls `send` on descriptor 5 and returns
`CSP_ERR_NONE` when `send` accepts the three octets and `CSP_ERR_TX` when `send`
fails and returns `-1`. -/
theorem connecting_tx_sends_on_dead_socket :
    (Sender.kiss_tcp_rx_loop sample_sender [] [sample_eof]).exited = true
    ∧ (Sender.kiss_tcp_rx_loop sample_sender [] [sample_eof]).ctx.driver.run = false
    ∧ (Sender.kiss_tcp_driver_tx (Sender.kiss_tcp_rx_loop sample_sender [] [sample_eof]).ctx.driver
        [1, 2, 3] 3 3).ret = CSP_ERR_NONE
    ∧ (Sender.kiss_tcp_driver_tx (Sender.kiss_tcp_rx_loop sample_sender [] [sample_eof]).ctx.driver
        [1, 2, 3] 3 3).trace = [Effect.send 5 [1, 2, 3] 3]
    ∧ (Sender.kiss_tcp_driver_tx (Sender.kiss_tcp_rx_loop sample_sender [] [sample_eof]).ctx.driver
        [1, 2, 3] 3 (-1)).ret = CSP_ERR_TX
    ∧ (Sender.kiss_tcp_driver_tx (Sender.kiss_tcp_rx_loop sample_sender [] [sample_eof]).ctx.driver
        [1, 2, 3] 3 (-1)).trace = [Effect.send 5 [1, 2, 3] 3] := by
  decide

/-- C8 fails as stated for the connecting role: a transmit of `1 2 3` makes the
one `send` call and nothing else; no lock is taken or released. -/
theorem sender_tx_takes_no_lock :
    (Sender.kiss_tcp_driver_tx sample_sender.driver [1, 2, 3] 3 3).trace
      = [Effect.send 5 [1, 2, 3] 3]
    ∧ (Sender.kiss_tcp_driver_tx sample_sender.driver [1, 2, 3] 3 3).trace
      ≠ [Effect.mutex_lock, Effect.send 5 [1, 2, 3] 3, Effect.mutex_unlock] := by
  decide

/-- C8 as amended: for every transmit call, every byte sequence and whatever
`send` returns, the listening role on a live connection makes exactly the calls
lock, one `send` on `client_fd` with the complete sequence and its length,
unlock, in this order; the connecting role makes exactly one `send` on `sockfd`
with the complete sequence and its length, and takes no lock. In neither role
is there a second `send`. -/
theorem tx_effect_sequence (rctx : Receiver.kiss_tcp_iface_t)
    (sctx : Sender.kiss_tcp_driver_t) (data : List Byte) (len : Nat) (send_ret : Int)
    (hlive : 0 ≤ rctx.server.client_fd) :
    (Receiver.kiss_tcp_driver_tx rctx data len send_ret).trace
      = [Effect.mutex_lock, Effect.send rctx.server.client_fd data len, Effect.mutex_unlock]
    ∧ (Sender.kiss_tcp_driver_tx sctx data len send_ret).trace
      = [Effect.send sctx.sockfd data len] := by
  have hn : ¬ rctx.server.client_fd < 0 := by omega
  simp [Receiver.kiss_tcp_driver_tx, Sender.kiss_tcp_driver_tx, hn]

theorem tx_effect_sequence_witness :
    (0 : Int) ≤ sample_receiver.server.client_fd
    ∧ (Receiver.kiss_tcp_driver_tx sample_receiver [1, 2, 3] 3 (-1)).trace
      = [Effect.mutex_lock, Effect.send 5 [1, 2, 3] 3, Effect.mutex_unlock]
    ∧ (Sender.kiss_tcp_driver_tx sample_sender.driver [1, 2, 3] 3 (-1)).trace
      = [Effect.send 5 [1, 2, 3] 3] :=
  ⟨by decide, tx_effect_sequence sample_receiver sample_sender.driver [1, 2, 3] 3 (-1) (by decide)⟩

/-! ## Start-up -/

/-- The listening `kiss_tcp_iface_init`, case by case: the code returned and
the calls made, which stop at the first step that fails. -/
theorem Receiver.listening_init_cases (ctx : Receiver.kiss_tcp_iface_t) (i : Receiver.InitEnv) :
    (i.socket_ret < 0 →
      (Receiver.kiss_tcp_iface_init ctx i).ret = CSP_ERR_NOMEM
      ∧ (Receiver.kiss_tcp_iface_init ctx i).trace = (Receiver.init_calls i.socket_ret).take 1)
    ∧ (0 ≤ i.socket_ret → i.inet_pton_ret ≠ 1 →
      (Receiver.kiss_tcp_iface_init ctx i).ret = CSP_ERR_INVAL
      ∧ (Receiver.kiss_tcp_iface_init ctx i).trace = (Receiver.init_calls i.socket_ret).take 3)
    ∧ (0 ≤ i.socket_ret → i.inet_pton_ret = 1 → i.bind_ret < 0 →
      (Receiver.kiss_tcp_iface_init ctx i).ret = CSP_ERR_NOCONN
      ∧ (Receiver.kiss_tcp_iface_init ctx i).trace = (Receiver.init_calls i.socket_ret).take 4)
    ∧ (0 ≤ i.socket_ret → i.inet_pton_ret = 1 → 0 ≤ i.bind_ret → i.listen_ret < 0 →
      (Receiver.kiss_tcp_iface_init ctx i).ret = CSP_ERR_NOCONN
      ∧ (Receiver.kiss_tcp_iface_init ctx i).trace = (Receiver.init_calls i.socket_ret).take 5)
    ∧ (0 ≤ i.socket_ret → i.inet_pton_ret = 1 → 0 ≤ i.bind_ret → 0 ≤ i.listen_ret →
        i.add_interface_ret ≠ CSP_ERR_NONE →
      (Receiver.kiss_tcp_iface_init ctx i).ret = CSP_ERR_NOMEM
      ∧ (Receiver.kiss_tcp_iface_init ctx i).trace = (Receiver.init_calls i.socket_ret).take 6)
    ∧ (0 ≤ i.socket_ret → i.inet_pton_ret = 1 → 0 ≤ i.bind_ret → 0 ≤ i.listen_ret →
        i.add_interface_ret = CSP_ERR_NONE → i.create_ret ≠ 0 →
      (Receiver.kiss_tcp_iface_init ctx i).ret = CSP_ERR_NOMEM
      ∧ (Receiver.kiss_tcp_iface_init ctx i).trace = Receiver.init_calls i.socket_ret)
    ∧ (i.all_ok = true →
      (Receiver.kiss_tcp_iface_init ctx i).ret = CSP_ERR_NONE
      ∧ (Receiver.kiss_tcp_iface_init ctx i).trace = Receiver.init_calls i.socket_ret) := by
  refine ⟨?_, ?_, ?_, ?_, ?_, ?_, ?_⟩
  · intro h1
    simp [Receiver.kiss_tcp_iface_init, Receiver.init_calls, h1]
  · intro h1 h2
    have n1 : ¬ i.socket_ret < 0 := by omega
    simp [Receiver.kiss_tcp_iface_init, Receiver.init_calls, n1, h2]
  · intro h1 h2 h3
    have n1 : ¬ i.socket_ret < 0 := by omega
    simp [Receiver.kiss_tcp_iface_init, Receiver.init_calls, n1, h2, h3]
  · intro h1 h2 h3 h4
    have n1 : ¬ i.socket_ret < 0 := by omega
    have n3 : ¬ i.bind_ret < 0 := by omega
    simp [Receiver.kiss_tcp_iface_init, Receiver.init_calls, n1, h2, n3, h4]
  · intro h1 h2 h3 h4 h5
    have n1 : ¬ i.socket_ret < 0 := by omega
    have n3 : ¬ i.bind_ret < 0 := by omega
    have n4 : ¬ i.listen_ret < 0 := by omega
    simp [Receiver.kiss_tcp_iface_init, Receiver.init_calls, n1, h2, n3, n4, h5]
  · intro h1 h2 h3 h4 h5 h6
    have n1 : ¬ i.socket_ret < 0 := by omega
    have n3 : ¬ i.bind_ret < 0 := by omega
    have n4 : ¬ i.listen_ret < 0 := by omega
    simp [Receiver.kiss_tcp_iface_init, Receiver.init_calls, n1, h2, n3, n4, h5, h6]
  · intro h
    simp only [Receiver.InitEnv.all_ok, Bool.and_eq_true, decide_eq_true_eq] at h
    obtain ⟨⟨⟨⟨⟨h1, h2⟩, h3⟩, h4⟩, h5⟩, h6⟩ := h
    have n1 : ¬ i.socket_ret < 0 := by omega
    have n3 : ¬ i.bind_ret < 0 := by omega
    have n4 : ¬ i.listen_ret < 0 := by omega
    simp [Receiver.kiss_tcp_iface_init, Receiver.init_calls, n1, h2, n3, n4, h5, h6]

/-- The connecting `kiss_tcp_iface_init`, case by case. -/
theorem Sender.connecting_init_cases (ctx : Sender.kiss_tcp_iface_t) (i : Sender.InitEnv) :
    (i.socket_ret < 0 →
      (Sender.kiss_tcp_iface_init ctx i).ret = CSP_ERR_NOMEM
      ∧ (Sender.kiss_tcp_iface_init ctx i).trace = (Sender.init_calls i.socket_ret).take 1)
    ∧ (0 ≤ i.socket_ret → i.inet_pton_ret ≠ 1 →
      (Sender.kiss_tcp_iface_init ctx i).ret = CSP_ERR_INVAL
      ∧ (Sender.kiss_tcp_iface_init ctx i).trace = (Sender.init_calls i.socket_ret).take 2)
    ∧ (0 ≤ i.socket_ret → i.inet_pton_ret = 1 → i.connect_ret < 0 →
      (Sender.kiss_tcp_iface_init ctx i).ret = CSP_ERR_NOCONN
      ∧ (Sender.kiss_tcp_iface_init ctx i).trace = (Sender.init_calls i.socket_ret).take 3)
    ∧ (0 ≤ i.socket_ret → i.inet_pton_ret = 1 → 0 ≤ i.connect_ret →
        i.add_interface_ret ≠ CSP_ERR_NONE →
      (Sender.kiss_tcp_iface_init ctx i).ret = CSP_ERR_NOMEM
      ∧ (Sender.kiss_tcp_iface_init ctx i).trace = (Sender.init_calls i.socket_ret).take 4)
    ∧ (0 ≤ i.socket_ret → i.inet_pton_ret = 1 → 0 ≤ i.connect_ret →
        i.add_interface_ret = CSP_ERR_NONE → i.create_ret ≠ 0 →
      (Sender.kiss_tcp_iface_init ctx i).ret = CSP_ERR_NOMEM
      ∧ (Sender.kiss_tcp_iface_init ctx i).trace = Sender.init_calls i.socket_ret)
    ∧ (i.all_ok = true →
      (Sender.kiss_tcp_iface_init ctx i).ret = CSP_ERR_NONE
      ∧ (Sender.kiss_tcp_iface_init ctx i).trace = Sender.init_calls i.socket_ret) := by
  refine ⟨?_, ?_, ?_, ?_, ?_, ?_⟩
  · intro h1
    simp [Sender.kiss_tcp_iface_init, Sender.init_calls, h1]
  · intro h1 h2
    have n1 : ¬ i.socket_ret < 0 := by omega
    simp [Sender.kiss_tcp_iface_init, Sender.init_calls, n1, h2]
  · intro h1 h2 h3
    have n1 : ¬ i.socket_ret < 0 := by omega
    simp [Sender.kiss_tcp_iface_init, Sender.init_calls, n1, h2, h3]
  · intro h1 h2 h3 h4
    have n1 : ¬ i.socket_ret < 0 := by omega
    have n3 : ¬ i.connect_ret < 0 := by omega
    simp [Sender.kiss_tcp_iface_init, Sender.init_calls, n1, h2, n3, h4]
  · intro h1 h2 h3 h4 h5
    have n1 : ¬ i.socket_ret < 0 := by omega
    have n3 : ¬ i.connect_ret < 0 := by omega
    simp [Sender.kiss_tcp_iface_init, Sender.init_calls, n1, h2, n3, h4, h5]
  · intro h
    simp only [Sender.InitEnv.all_ok, Bool.and_eq_true, decide_eq_true_eq] at h
    obtain ⟨⟨⟨⟨h1, h2⟩, h3⟩, h4⟩, h5⟩ := h
    have n1 : ¬ i.socket_ret < 0 := by omega
    have n3 : ¬ i.connect_ret < 0 := by omega
    simp [Sender.kiss_tcp_iface_init, Sender.init_calls, n1, h2, n3, h4, h5]

/-- Some step of the listening initialisation fails: which one is the first. -/
theorem Receiver.listening_not_all_ok_cases (i : Receiver.InitEnv) (h : i.all_ok = false) :
    i.socket_ret < 0
    ∨ (0 ≤ i.socket_ret ∧ i.inet_pton_ret ≠ 1)
    ∨ (0 ≤ i.socket_ret ∧ i.inet_pton_ret = 1 ∧ i.bind_ret < 0)
    ∨ (0 ≤ i.socket_ret ∧ i.inet_pton_ret = 1 ∧ 0 ≤ i.bind_ret ∧ i.listen_ret < 0)
    ∨ (0 ≤ i.socket_ret ∧ i.inet_pton_ret = 1 ∧ 0 ≤ i.bind_ret ∧ 0 ≤ i.listen_ret
        ∧ i.add_interface_ret ≠ CSP_ERR_NONE)
    ∨ (0 ≤ i.socket_ret ∧ i.inet_pton_ret = 1 ∧ 0 ≤ i.bind_ret ∧ 0 ≤ i.listen_ret
        ∧ i.add_interface_ret = CSP_ERR_NONE ∧ i.create_ret ≠ 0) := by
  by_contra hc
  simp only [not_or, not_and, not_lt, ne_eq, not_not] at hc
  obtain ⟨c1, c2, c3, c4, c5, c6⟩ := hc
  have a2 := c2 c1
  have a3 := c3 c1 a2
  have a4 := c4 c1 a2 a3
  have a5 := c5 c1 a2 a3 a4
  have a6 := c6 c1 a2 a3 a4 a5
  simp [Receiver.InitEnv.all_ok, c1, a2, a3, a4, a5, a6] at h

/-- Some step of the connecting initialisation fails: which one is the first. -/
theorem Sender.connecting_not_all_ok_cases (i : Sender.InitEnv) (h : i.all_ok = false) :
    i.socket_ret < 0
    ∨ (0 ≤ i.socket_ret ∧ i.inet_pton_ret ≠ 1)
    ∨ (0 ≤ i.socket_ret ∧ i.inet_pton_ret = 1 ∧ i.connect_ret < 0)
    ∨ (0 ≤ i.socket_ret ∧ i.inet_pton_ret = 1 ∧ 0 ≤ i.connect_ret
        ∧ i.add_interface_ret ≠ CSP_ERR_NONE)
    ∨ (0 ≤ i.socket_ret ∧ i.inet_pton_ret = 1 ∧ 0 ≤ i.connect_ret
        ∧ i.add_interface_ret = CSP_ERR_NONE ∧ i.create_ret ≠ 0) := by
  by_contra hc
  simp only [not_or, not_and, not_lt, ne_eq, not_not] at hc
  obtain ⟨c1, c2, c3, c4, c5⟩ := hc
  have a2 := c2 c1
  have a3 := c3 c1 a2
  have a4 := c4 c1 a2 a3
  have a5 := c5 c1 a2 a3 a4
  simp [Sender.InitEnv.all_ok, c1, a2, a3, a4, a5] at h

theorem Receiver.listening_init_ret_of_not_all_ok (ctx : Receiver.kiss_tcp_iface_t)
    (i : Receiver.InitEnv) (h : i.all_ok = false) :
    (Receiver.kiss_tcp_iface_init ctx i).ret ≠ CSP_ERR_NONE := by
  obtain ⟨k1, k2, k3, k4, k5, k6, _⟩ := Receiver.listening_init_cases ctx i
  rcases Receiver.listening_not_all_ok_cases i h with c | ⟨a, b⟩ | ⟨a, b, c⟩ | ⟨a, b, c, d⟩
      | ⟨a, b, c, d, e⟩ | ⟨a, b, c, d, e, f⟩
  · rw [(k1 c).1]; decide
  · rw [(k2 a b).1]; decide
  · rw [(k3 a b c).1]; decide
  · rw [(k4 a b c d).1]; decide
  · rw [(k5 a b c d e).1]; decide
  · rw [(k6 a b c d e f).1]; decide

theorem Sender.connecting_init_ret_of_not_all_ok (ctx : Sender.kiss_tcp_iface_t)
    (i : Sender.InitEnv) (h : i.all_ok = false) :
    (Sender.kiss_tcp_iface_init ctx i).ret ≠ CSP_ERR_NONE := by
  obtain ⟨k1, k2, k3, k4, k5, _⟩ := Sender.connecting_init_cases ctx i
  rcases Sender.connecting_not_all_ok_cases i h with c | ⟨a, b⟩ | ⟨a, b, c⟩ | ⟨a, b, c, d⟩
      | ⟨a, b, c, d, e⟩
  · rw [(k1 c).1]; decide
  · rw [(k2 a b).1]; decide
  · rw [(k3 a b c).1]; decide
  · rw [(k4 a b c d).1]; decide
  · rw [(k5 a b c d e).1]; decide

/-- The calls of an initialisation are an initial stretch of the full list of
calls: nothing is skipped, reordered or done twice. -/
theorem Receiver.listening_init_trace_take (ctx : Receiver.kiss_tcp_iface_t) (i : Receiver.InitEnv) :
    ∃ k, (Receiver.kiss_tcp_iface_init ctx i).trace = (Receiver.init_calls i.socket_ret).take k := by
  obtain ⟨k1, k2, k3, k4, k5, k6, k7⟩ := Receiver.listening_init_cases ctx i
  cases hok : i.all_ok with
  | true => exact ⟨9, by rw [(k7 hok).2]; rfl⟩
  | false =>
    rcases Receiver.listening_not_all_ok_cases i hok with c | ⟨a, b⟩ | ⟨a, b, c⟩ | ⟨a, b, c, d⟩
        | ⟨a, b, c, d, e⟩ | ⟨a, b, c, d, e, f⟩
    · exact ⟨1, (k1 c).2⟩
    · exact ⟨3, (k2 a b).2⟩
    · exact ⟨4, (k3 a b c).2⟩
    · exact ⟨5, (k4 a b c d).2⟩
    · exact ⟨6, (k5 a b c d e).2⟩
    · exact ⟨9, by rw [(k6 a b c d e f).2]; rfl⟩

theorem Sender.connecting_init_trace_take (ctx : Sender.kiss_tcp_iface_t) (i : Sender.InitEnv) :
    ∃ k, (Sender.kiss_tcp_iface_init ctx i).trace = (Sender.init_calls i.socket_ret).take k := by
  obtain ⟨k1, k2, k3, k4, k5, k6⟩ := Sender.connecting_init_cases ctx i
  cases hok : i.all_ok with
  | true => exact ⟨7, by rw [(k6 hok).2]; rfl⟩
  | false =>
    rcases Sender.connecting_not_all_ok_cases i hok with c | ⟨a, b⟩ | ⟨a, b, c⟩ | ⟨a, b, c, d⟩
        | ⟨a, b, c, d, e⟩
    · exact ⟨1, (k1 c).2⟩
    · exact ⟨2, (k2 a b).2⟩
    · exact ⟨3, (k3 a b c).2⟩
    · exact ⟨4, (k4 a b c d).2⟩
    · exact ⟨7, by rw [(k5 a b c d e).2]; rfl⟩

theorem Receiver.listening_init_ret_none_iff (ctx : Receiver.kiss_tcp_iface_t) (i : Receiver.InitEnv) :
    (Receiver.kiss_tcp_iface_init ctx i).ret = CSP_ERR_NONE ↔ i.all_ok = true := by
  constructor
  · intro h
    cases hok : i.all_ok with
    | true => rfl
    | false => exact absurd h (Receiver.listening_init_ret_of_not_all_ok ctx i hok)
  · intro h
    exact ((Receiver.listening_init_cases ctx i).2.2.2.2.2.2 h).1

theorem Sender.connecting_init_ret_none_iff (ctx : Sender.kiss_tcp_iface_t) (i : Sender.InitEnv) :
    (Sender.kiss_tcp_iface_init ctx i).ret = CSP_ERR_NONE ↔ i.all_ok = true := by
  constructor
  · intro h
    cases hok : i.all_ok with
    | true => rfl
    | false => exact absurd h (Sender.connecting_init_ret_of_not_all_ok ctx i hok)
  · intro h
    exact ((Sender.connecting_init_cases ctx i).2.2.2.2.2 h).1

/-- When the listening initialisation fails, `main` returns 1 having made only
the calls of the initialisation after `csp_init`; the router thread is not
created. -/
theorem Receiver.listening_main_of_not_all_ok (env : Receiver.MainEnv) (h : env.init.all_ok = false) :
    (Receiver.main env).exit = some 1
    ∧ (Receiver.main env).trace
        = Effect.csp_init :: (Receiver.kiss_tcp_iface_init Receiver.g_kiss_iface env.init).trace
    ∧ Effect.pthread_create ThreadFn.router_loop ∉ (Receiver.main env).trace := by
  have hret := Receiver.listening_init_ret_of_not_all_ok Receiver.g_kiss_iface env.init h
  have hm : Receiver.main env
      = { exit := some 1
          trace := [Effect.csp_init]
            ++ (Receiver.kiss_tcp_iface_init Receiver.g_kiss_iface env.init).trace } := by
    simp [Receiver.main, hret]
  obtain ⟨k, hk⟩ := Receiver.listening_init_trace_take Receiver.g_kiss_iface env.init
  refine ⟨by rw [hm], by rw [hm]; rfl, ?_⟩
  rw [hm]
  intro hmem
  simp only [List.singleton_append, List.mem_cons] at hmem
  rcases hmem with hmem | hmem
  · cases hmem
  · rw [hk] at hmem
    have := List.mem_of_mem_take hmem
    simp [Receiver.init_calls] at this

/-- When the connecting initialisation fails, `main` returns 1 having made only
the calls of the initialisation after `csp_init`; the router thread is not
created. -/
theorem Sender.connecting_main_of_not_all_ok (env : Sender.MainEnv) (h : env.init.all_ok = false) :
    (Sender.main env).exit = some 1
    ∧ (Sender.main env).trace
        = Effect.csp_init :: (Sender.kiss_tcp_iface_init Sender.g_kiss_iface env.init).trace
    ∧ Effect.pthread_create ThreadFn.router_loop ∉ (Sender.main env).trace := by
  have hret := Sender.connecting_init_ret_of_not_all_ok Sender.g_kiss_iface env.init h
  have hm : Sender.main env
      = { exit := some 1
          trace := [Effect.csp_init]
            ++ (Sender.kiss_tcp_iface_init Sender.g_kiss_iface env.init).trace } := by
    simp [Sender.main, hret]
  obtain ⟨k, hk⟩ := Sender.connecting_init_trace_take Sender.g_kiss_iface env.init
  refine ⟨by rw [hm], by rw [hm]; rfl, ?_⟩
  rw [hm]
  intro hmem
  simp only [List.singleton_append, List.mem_cons] at hmem
  rcases hmem with hmem | hmem
  · cases hmem
  · rw [hk] at hmem
    have := List.mem_of_mem_take hmem
    simp [Sender.init_calls] at this

/-- A listening `main` that does not exit with status 1 had every step of the
initialisation and the creation of the router thread succeed. -/
theorem Receiver.listening_main_success (env : Receiver.MainEnv) (h : (Receiver.main env).exit ≠ some 1) :
    env.init.all_ok = true ∧ env.router_create_ret = 0 := by
  cases hok : env.init.all_ok with
  | false => exact absurd (Receiver.listening_main_of_not_all_ok env hok).1 h
  | true =>
    refine ⟨rfl, ?_⟩
    by_contra hr
    have hret := (Receiver.listening_init_ret_none_iff Receiver.g_kiss_iface env.init).2 hok
    apply h
    simp [Receiver.main, hret, Receiver.start_router_task, hr]

/-- A connecting `main` that does not exit with status 1 had every step of the
initialisation and the creation of the router thread succeed. -/
theorem Sender.connecting_main_success (env : Sender.MainEnv) (h : (Sender.main env).exit ≠ some 1) :
    env.init.all_ok = true ∧ env.router_create_ret = 0 := by
  cases hok : env.init.all_ok with
  | false => exact absurd (Sender.connecting_main_of_not_all_ok env hok).1 h
  | true =>
    refine ⟨rfl, ?_⟩
    by_contra hr
    have hret := (Sender.connecting_init_ret_none_iff Sender.g_kiss_iface env.init).2 hok
    apply h
    simp [Sender.main, hret, Sender.start_router_task, hr]

/-- C9 fails as stated: in a run of `main` in which every call succeeds, the
thread of the accept loop (listening role) and the thread of the receive pump
(connecting role) are created by `kiss_tcp_iface_init`, before `main` creates
the router thread. -/
theorem lifecycle_thread_created_before_router :
    (Receiver.main sample_receiver_env).exit ≠ some 1
    ∧ (Receiver.main sample_receiver_env).trace
        = [Effect.csp_init, Effect.socket, Effect.setsockopt 3, Effect.inet_pton, Effect.bind 3,
           Effect.listen 3 1, Effect.csp_kiss_add_interface, Effect.csp_iflist_add,
           Effect.csp_rtable_set, Effect.pthread_create ThreadFn.kiss_tcp_accept_loop,
           Effect.pthread_create ThreadFn.router_loop, Effect.run_receiver]
    ∧ (Receiver.main sample_receiver_env).trace.indexOf
          (Effect.pthread_create ThreadFn.kiss_tcp_accept_loop)
        < (Receiver.main sample_receiver_env).trace.indexOf
          (Effect.pthread_create ThreadFn.router_loop)
    ∧ (Sender.main sample_sender_env).exit = some 0
    ∧ (Sender.main sample_sender_env).trace
        = [Effect.csp_init, Effect.socket, Effect.inet_pton, Effect.connect 3,
           Effect.csp_kiss_add_interface, Effect.csp_iflist_add, Effect.csp_rtable_set,
           Effect.pthread_create ThreadFn.kiss_tcp_rx_loop,
           Effect.pthread_create ThreadFn.router_loop, Effect.send_demo_payload,
           Effect.clear_router_running, Effect.pthread_join ThreadFn.router_loop]
    ∧ (Sender.main sample_sender_env).trace.indexOf
          (Effect.pthread_create ThreadFn.kiss_tcp_rx_loop)
        < (Sender.main sample_sender_env).trace.indexOf
          (Effect.pthread_create ThreadFn.router_loop) := by
  decide

/-- C9 as amended: in every run of `main` that does not fail at start-up, the
main thread makes its calls in this order: `csp_init`; open the socket and
bind and listen (listening role) or connect (connecting role); register the
adapter (`csp_kiss_add_interface`, `csp_iflist_add`, `csp_rtable_set`); create
the thread of the connection lifecycle (the accept loop, respectively the
receive pump), which `kiss_tcp_iface_init` does itself; and only then create
the router thread; the application part follows. -/
theorem startup_order (renv : Receiver.MainEnv) (senv : Sender.MainEnv)
    (hr : (Receiver.main renv).exit ≠ some 1) (hs : (Sender.main senv).exit ≠ some 1) :
    (Receiver.main renv).trace
        = [Effect.csp_init, Effect.socket, Effect.setsockopt renv.init.socket_ret,
           Effect.inet_pton, Effect.bind renv.init.socket_ret,
           Effect.listen renv.init.socket_ret 1, Effect.csp_kiss_add_interface,
           Effect.csp_iflist_add, Effect.csp_rtable_set,
           Effect.pthread_create ThreadFn.kiss_tcp_accept_loop,
           Effect.pthread_create ThreadFn.router_loop]
          ++ (if renv.run_receiver_returns = true then
                [Effect.run_receiver, Effect.clear_router_running,
                 Effect.pthread_join ThreadFn.router_loop]
              else [Effect.run_receiver])
    ∧ (Sender.main senv).trace
        = [Effect.csp_init, Effect.socket, Effect.inet_pton, Effect.connect senv.init.socket_ret,
           Effect.csp_kiss_add_interface, Effect.csp_iflist_add, Effect.csp_rtable_set,
           Effect.pthread_create ThreadFn.kiss_tcp_rx_loop,
           Effect.pthread_create ThreadFn.router_loop, Effect.send_demo_payload,
           Effect.clear_router_running, Effect.pthread_join ThreadFn.router_loop]
    ∧ (Sender.main senv).exit = some 0 := by
  obtain ⟨hrok, hrr⟩ := Receiver.listening_main_success renv hr
  obtain ⟨hsok, hsr⟩ := Sender.connecting_main_success senv hs
  obtain ⟨r1, r2⟩ := (Receiver.listening_init_cases Receiver.g_kiss_iface renv.init).2.2.2.2.2.2 hrok
  obtain ⟨s1, s2⟩ := (Sender.connecting_init_cases Sender.g_kiss_iface senv.init).2.2.2.2.2 hsok
  refine ⟨?_, ?_, ?_⟩
  · cases hret : renv.run_receiver_returns <;>
      simp [Receiver.main, r1, r2, Receiver.start_router_task, hrr, hret, Receiver.init_calls]
  · simp [Sender.main, s1, s2, Sender.start_router_task, hsr, Sender.init_calls]
  · simp [Sender.main, s1, Sender.start_router_task, hsr]

theorem startup_order_witness :
    ((Receiver.main sample_receiver_env).exit ≠ some 1
      ∧ (Sender.main sample_sender_env).exit ≠ some 1)
    ∧ (Receiver.main sample_receiver_env).trace
        = [Effect.csp_init, Effect.socket, Effect.setsockopt 3, Effect.inet_pton, Effect.bind 3,
           Effect.listen 3 1, Effect.csp_kiss_add_interface, Effect.csp_iflist_add,
           Effect.csp_rtable_set, Effect.pthread_create ThreadFn.kiss_tcp_accept_loop,
           Effect.pthread_create ThreadFn.router_loop]
          ++ [Effect.run_receiver] :=
  ⟨⟨by decide, by decide⟩,
   (startup_order sample_receiver_env sample_sender_env (by decide) (by decide)).1⟩

end KissTcp
